import Mathlib

set_option linter.unusedVariables false

/-!
Verification of the CSS 2.1 recursive-descent parser in
`xhtml2pdf/w3c/cssParser.py` (repository `n3h3m/html2pdf`).

The parser operates on the unconsumed suffix of the source text; we embed
that cursor as `List Char`.  Every grammar production of the Python class
`CSSParser` is translated into a Lean function of type
`Nat → … → Except PErr …`; the `Nat` is step fuel that decreases on every
recursive call and on every loop iteration, and running out of fuel is the
distinguished error `PErr.outOfFuel` (the Python code has no such bound, so
a result other than `outOfFuel` coincides with the Python behaviour, and a
result of `outOfFuel` for every fuel witnesses divergence).

Python-level exceptions are embedded explicitly:
`PErr.parseErr` is `CSSParseError`, and `PErr.pyRaise` covers the other
exception classes the code can hit (`TypeError`, `IndexError`,
`AttributeError`).  The code is written for both Python 2 and Python 3 via
`six`; where the two disagree we embed the Python 3 semantics (notably
`filter(...)` being a non-subscriptable iterator in `_get_string`, and
`int < None` raising `TypeError`).

The builder is embedded as a free builder: each hook of the capability
interface records its arguments in a constructor of `Term`, `Sel`, `Decl`,
`Elem`, … so that hook invocations are observable in the parse result.
-/

/-- The unconsumed suffix of the CSS source ("cursor"). -/
abbrev Src := List Char

/-- Characters stripped by Python's `str.strip` / `str.lstrip` and matched
by `\s` in a unicode `re` pattern (the rare non-Latin-1 Unicode space
code points are omitted; no claim depends on them). -/
def pyIsSpace (c : Char) : Bool :=
  c = ' ' || c = '\t' || c = '\n' || c = '\x0d' || c = '\x0b' || c = '\x0c' ||
  c = '\x1c' || c = '\x1d' || c = '\x1e' || c = '\x1f' || c = '\x85' || c = '\xa0'

/-- Python `str.lstrip()`. -/
def lstrip (s : Src) : Src := s.dropWhile pyIsSpace

/-- Python `str.strip()`. -/
def pyStrip (s : Src) : Src := (lstrip (lstrip s).reverse).reverse

/-- Python `str.startswith` on cursors (`startsWithL s p` ⟺ `s.startswith(p)`). -/
def startsWithL : Src → Src → Bool
  | _, [] => true
  | [], _ :: _ => false
  | c :: cs, d :: ds => c = d && startsWithL cs ds

/-- Embedding of `src[:1] in (…, '')`: true when the cursor is empty or its first
character belongs to `stops` (every stop tuple in the source that this
helper models contains the empty string). -/
def stopAt (s : Src) (stops : List Char) : Bool :=
  match s with
  | [] => true
  | c :: _ => stops.contains c

/-- Leftmost index at which `pat` occurs in `s` (`str.find` without the
`-1` encoding). -/
def findSub : Src → Src → Option Nat
  | s, pat =>
    if startsWithL s pat then some 0
    else
      match s with
      | [] => none
      | _ :: rest => (findSub rest pat).map (· + 1)

/-- Python `str.find`: leftmost occurrence index, `-1` when absent. -/
def pyFind (s pat : Src) : Int :=
  match findSub s pat with
  | some n => (n : Int)
  | none => -1

/-- The double-quote character (written via its code point to keep string
literals quote-free). -/
def dQuote : Char := Char.ofNat 0x22

/-- The single-quote character. -/
def sQuote : Char := Char.ofNat 0x27

-- ~~~~~ lexical recognizers (the compiled regular expressions) ~~~~~

/-- Embedding of `[0-9a-fA-F]` (`i_hex`). -/
def isHexDigitC (c : Char) : Bool :=
  ('0' ≤ c && c ≤ '9') || ('a' ≤ c && c ≤ 'f') || ('A' ≤ c && c ≤ 'F')

/-- Embedding of `[\200-\377]` (`i_nonascii`): code points 0x80–0xFF. -/
def isNonAscii (c : Char) : Bool :=
  0x80 ≤ c.toNat && c.toNat ≤ 0xFF

/-- Embedding of `[A-Za-z_]`. -/
def isAsciiLetterUnd (c : Char) : Bool :=
  ('a' ≤ c && c ≤ 'z') || ('A' ≤ c && c ≤ 'Z') || c = '_'

/-- Embedding of `i_escape = \\(?:[0-9a-f]{1,6})\s? | \\[ -~\200-\377]` as a unit
matcher returning (consumed characters, rest).  The unicode form is tried
first, exactly as in the alternation. -/
def matchEscape : Src → Option (Src × Src)
  | '\\' :: rest =>
    let hexs := rest.takeWhile isHexDigitC
    if hexs = [] then
      match rest with
      | c :: rest' =>
        if (0x20 ≤ c.toNat && c.toNat ≤ 0x7E) || isNonAscii c then
          some (['\\', c], rest')
        else none
      | [] => none
    else
      let hexs6 := hexs.take 6
      let rest' := rest.drop hexs6.length
      match rest' with
      | c :: rest'' =>
        if pyIsSpace c then some ('\\' :: (hexs6 ++ [c]), rest'')
        else some ('\\' :: hexs6, rest')
      | [] => some ('\\' :: hexs6, [])
  | _ => none

/-- Embedding of `i_nmstart = \-[^0-9]|[A-Za-z_] | nonascii | escape` as a unit matcher
(alternatives tried in source order; note the first alternative consumes
two characters). -/
def matchNmStart : Src → Option (Src × Src)
  | '-' :: c :: rest => if c.isDigit then none else some (['-', c], rest)
  | s@(c :: rest) =>
    if isAsciiLetterUnd c || isNonAscii c then some ([c], rest)
    else matchEscape s
  | [] => none

/-- Embedding of `i_nmchar = [-0-9A-Za-z_] | nonascii | escape` as a unit matcher. -/
def matchNmChar : Src → Option (Src × Src)
  | s@(c :: rest) =>
    if c = '-' || c.isDigit || isAsciiLetterUnd c || isNonAscii c then some ([c], rest)
    else matchEscape s
  | [] => none

/-- Greedy `(?:nmchar)*`.  The fuel is the cursor length; since every
`nmchar` unit consumes at least one character this bound is never reached
before the natural stop, so the function computes the true maximal munch. -/
def munchNmChars : Nat → Src → Src × Src
  | 0, s => ([], s)
  | n + 1, s =>
    match matchNmChar s with
    | none => ([], s)
    | some (tk, rest) =>
      let (tks, rest') := munchNmChars n rest
      (tk ++ tks, rest')

/-- Embedding of `re_ident` (`(nmstart)(nmchar)*`), returning (group 1, rest). -/
def matchIdent (s : Src) : Option (Src × Src) :=
  match matchNmStart s with
  | none => none
  | some (tk, rest) =>
    let (tks, rest') := munchNmChars rest.length rest
    some (tk ++ tks, rest')

/-- Embedding of `re_unicodeid` (`[^\u0000-\u007f]+`). -/
def matchUnicodeId (s : Src) : Option (Src × Src) :=
  let run := s.takeWhile (fun c => 0x7F < c.toNat)
  if run = [] then none else some (run, s.drop run.length)

/-- Embedding of `re_element_name` (`(ident|\*)`). -/
def matchElementName (s : Src) : Option (Src × Src) :=
  match matchIdent s with
  | some r => some r
  | none =>
    match s with
    | '*' :: rest => some (['*'], rest)
    | _ => none

/-- The `\|(?!=)` tail of the namespace selector. -/
def pipeNotEq : Src → Option Src
  | '|' :: '=' :: _ => none
  | '|' :: rest => some rest
  | _ => none

/-- Embedding of `re_namespace_selector` (`((ident)|\*|)\|(?!=)`): returns
(group 1, rest); the group may be empty.  When the identifier alternative
matches but no `|` follows, the remaining alternatives cannot match either
(they require the cursor to start with `*` or `|`, which is never a valid
identifier start), so no backtracking is needed. -/
def matchNamespaceSel (s : Src) : Option (Src × Src) :=
  match matchIdent s with
  | some (g, rest) =>
    match pipeNotEq rest with
    | some rest' => some (g, rest')
    | none => none
  | none =>
    match s with
    | '*' :: rest =>
      match pipeNotEq rest with
      | some rest' => some (['*'], rest')
      | none => none
    | _ =>
      match pipeNotEq s with
      | some rest' => some ([], rest')
      | none => none

/-- Embedding of `re_class` (`\.` followed by `re_ident`; group 1 is the identifier). -/
def matchClass : Src → Option (Src × Src)
  | '.' :: rest => matchIdent rest
  | _ => none

/-- Embedding of `re_hash` (`#((?:nmchar)+)`; group 1 excludes the `#`). -/
def matchHash : Src → Option (Src × Src)
  | '#' :: rest =>
    match matchNmChar rest with
    | none => none
    | some (tk, r) =>
      let (tks, r') := munchNmChars r.length r
      some (tk ++ tks, r')
  | _ => none

/-- Embedding of `re_rgbcolor` (`(#hex{6}|#hex{3})`; the six-digit alternative is tried
first; group 1 includes the `#`). -/
def matchRgb : Src → Option (Src × Src)
  | '#' :: rest =>
    if rest.length ≥ 6 && (rest.take 6).all isHexDigitC then
      some ('#' :: rest.take 6, rest.drop 6)
    else if rest.length ≥ 3 && (rest.take 3).all isHexDigitC then
      some ('#' :: rest.take 3, rest.drop 3)
    else none
  | _ => none

/-- The character class `[\t !#$%&(-~]` of `i_string_content` (it contains
the backslash, which is why the escape alternatives of the string grammar
only ever fire before a newline). -/
def isStrClassChar (c : Char) : Bool :=
  c = '\t' || c = ' ' || c = '!' || c = '#' || c = '$' || c = '%' || c = '&' ||
  (0x28 ≤ c.toNat && c.toNat ≤ 0x7E)

/-- One unit of string content for a string quoted with the other quote
character `altQ` also allowed: the class above, `\\`+newline (`i_escape_nl`,
reachable by backtracking only when a newline follows the backslash, which
is exactly when the class alternative fails to extend the match), the other
quote, or a non-ASCII character. -/
def strUnit (altQ : Char) : Src → Option (Src × Src)
  | '\\' :: '\x0d' :: '\n' :: r => some (['\\', '\x0d', '\n'], r)
  | '\\' :: '\n' :: r => some (['\\', '\n'], r)
  | '\\' :: '\x0d' :: r => some (['\\', '\x0d'], r)
  | '\\' :: '\x0c' :: r => some (['\\', '\x0c'], r)
  | c :: r =>
    if isStrClassChar c || c = altQ || isNonAscii c then some ([c], r)
    else none
  | [] => none

/-- Greedy `(?:content|altQ)*` (fuel = cursor length, exact as in
`munchNmChars`). -/
def strBody (altQ : Char) : Nat → Src → Src × Src
  | 0, s => ([], s)
  | n + 1, s =>
    match strUnit altQ s with
    | none => ([], s)
    | some (u, rest) =>
      let (us, r) := strBody altQ n rest
      (u ++ us, r)

/-- One quoted string: opening quote `q`, content (with `altQ` allowed
bare), closing quote `q`.  Returns (content, rest). -/
def matchStringQ (q altQ : Char) (s : Src) : Option (Src × Src) :=
  match s with
  | c :: rest =>
    if c = q then
      let (content, r) := strBody altQ rest.length rest
      match r with
      | c' :: r' => if c' = q then some (content, r') else none
      | [] => none
    else none
  | [] => none

/-- Embedding of `_get_string` with `re_string`, Python 3 semantics: `filter` is an
iterator, `strres[0]` raises `TypeError`, and the `except` clause falls
back to `result.groups()[0]`, i.e. always group 1 — the double-quoted
content.  A single-quoted string therefore matches (consuming its source)
but yields `None`. -/
def matchString (s : Src) : Option (Option Src × Src) :=
  match matchStringQ dQuote sQuote s with
  | some (content, rest) => some (some content, rest)
  | none =>
    match matchStringQ sQuote dQuote s with
    | some (_, rest) => some (none, rest)
    | none => none

/-- The bare-URI character class `[!#$%&*-~] | nonascii` (as with strings,
the class contains the backslash so the escape alternative is dead). -/
def isUriBareChar (c : Char) : Bool :=
  c = '!' || c = '#' || c = '$' || c = '%' || c = '&' ||
  (0x2A ≤ c.toNat && c.toNat ≤ 0x7E) || isNonAscii c

/-- Embedding of `re_uri` (`url\(\s*(?:(string)|((bare)+))\s*\)`, case-insensitive
`url`), with the same Python 3 group-1 extraction as `matchString`: only a
double-quoted URI yields its content, a single-quoted or bare URI matches
(consuming its source) but yields `None`. -/
def matchUri (s : Src) : Option (Option Src × Src) :=
  match s with
  | u :: rch :: lch :: par :: r2 =>
    if (u = 'u' || u = 'U') && (rch = 'r' || rch = 'R') &&
       (lch = 'l' || lch = 'L') && par = '(' then
      let r3 := r2.dropWhile pyIsSpace
      let inner : Option (Option Src × Src) :=
        match matchStringQ dQuote sQuote r3 with
        | some (content, rest) => some (some content, rest)
        | none =>
          match matchStringQ sQuote dQuote r3 with
          | some (_, rest) => some (none, rest)
          | none =>
            let bare := r3.takeWhile isUriBareChar
            if bare = [] then none else some (none, r3.drop bare.length)
      match inner with
      | none => none
      | some (g, rest) =>
        match rest.dropWhile pyIsSpace with
        | ')' :: r => some (g, r)
        | _ => none
    else none
  | _ => none

/-- Embedding of `re_num` (`(([-+]?[0-9]+(?:\.[0-9]+)?)|([-+]?\.[0-9]+))`; group 1 is
the whole number including any sign). -/
def matchNum (s : Src) : Option (Src × Src) :=
  let (sign, r0) :=
    match s with
    | c :: r => if c = '-' || c = '+' then ([c], r) else (([] : Src), s)
    | [] => ([], s)
  let ds := r0.takeWhile Char.isDigit
  if ds = [] then
    match r0 with
    | '.' :: r2 =>
      let fs := r2.takeWhile Char.isDigit
      if fs = [] then none
      else some (sign ++ '.' :: fs, r2.drop fs.length)
    | _ => none
  else
    let r1 := r0.drop ds.length
    match r1 with
    | '.' :: r2 =>
      let fs := r2.takeWhile Char.isDigit
      if fs = [] then some (sign ++ ds, r1)
      else some ((sign ++ ds) ++ '.' :: fs, r2.drop fs.length)
    | _ => some (sign ++ ds, r1)

/-- Embedding of `re_unit` (`(%|ident)?`): always matches; group 1 is `none` when the
optional part matched empty. -/
def matchUnit (s : Src) : Option Src × Src :=
  match s with
  | '%' :: r => (some ['%'], r)
  | _ =>
    match matchIdent s with
    | some (g, r) => (some g, r)
    | none => (none, s)

/-- Embedding of `re_functionterm` (`[-+]?` ident `\(`; group 1 is the identifier
without the sign).  When the signed attempt fails the engine retries
without consuming the sign (the sign characters are legal identifier
starts in this grammar). -/
def matchFunctionTerm (s : Src) : Option (Src × Src) :=
  let plain : Src → Option (Src × Src) := fun t =>
    match matchIdent t with
    | some (g, r) =>
      match r with
      | '(' :: r' => some (g, r')
      | _ => none
    | none => none
  match s with
  | c :: r =>
    if c = '-' || c = '+' then
      match plain r with
      | some res => some res
      | none => plain s
    else plain s
  | [] => none

/-- Embedding of `re_unicoderange` (`(?:U\+hex{1,6}-hex{1,6})`, case-insensitive).
The pattern has no capture group, so only the end of the match is
meaningful; `_get_match_result` asks for group 1 and raises `IndexError`
whenever this matcher succeeds. -/
def matchUnicodeRange (s : Src) : Option Src :=
  match s with
  | u :: '+' :: r =>
    if u = 'U' || u = 'u' then
      let h1 := r.takeWhile isHexDigitC
      if h1 = [] || h1.length > 6 then none
      else
        match r.drop h1.length with
        | '-' :: r2 =>
          let h2 := r2.takeWhile isHexDigitC
          if h2 = [] then none else some (r2.drop (min 6 h2.length))
        | _ => none
    else none
  | _ => none

/-- Case-insensitive ASCII comparison of a cursor against a keyword. -/
def startsWithCI : Src → List Char → Bool
  | _, [] => true
  | [], _ :: _ => false
  | c :: cs, d :: ds => c.toLower = d.toLower && startsWithCI cs ds

/-- Embedding of `re_important` (`!\s*(important)`, case-insensitive; group 1 is the
matched keyword as written in the source). -/
def matchImportant (s : Src) : Option (Src × Src) :=
  match s with
  | '!' :: r =>
    let r1 := r.dropWhile pyIsSpace
    if startsWithCI r1 ("important".toList) then
      some (r1.take 9, r1.drop 9)
    else none
  | _ => none

/-- Embedding of `re_comment.sub('', src)`: repeatedly delete `/* … */`, where each
comment ends at the first `*/` after its `/*`; an unterminated `/*` is left
in place (and no later comment can then match either).  Fuel = length + 1,
exact since each deletion removes at least four characters. -/
def stripCommentsGo : Nat → Src → Src
  | 0, s => s
  | n + 1, s =>
    match findSub s ['/', '*'] with
    | none => s
    | some i =>
      let after := s.drop (i + 2)
      match findSub after ['*', '/'] with
      | none => s
      | some j => s.take i ++ stripCommentsGo n (after.drop (j + 2))

/-- See `stripCommentsGo`. -/
def stripComments (s : Src) : Src := stripCommentsGo (s.length + 1) s

/-- Embedding of `is_at_rule_ident(src, ident)`: `re.match('^@' + ident + '\s*', src)`
used only for its truth value. -/
def is_at_rule_ident (s : Src) (ident : String) : Bool :=
  startsWithL s ('@' :: ident.toList)

/-- Embedding of `strip_at_rule_ident(src)`: `re.sub('^@[a-z\-]+\s*', '', src)`
(case-sensitive, greedy). -/
def strip_at_rule_ident (s : Src) : Src :=
  match s with
  | '@' :: r =>
    let run := r.takeWhile (fun c => ('a' ≤ c && c ≤ 'z') || c = '-')
    if run = [] then s
    else (r.drop run.length).dropWhile pyIsSpace
  | _ => s

-- ~~~~~ free-builder data model ~~~~~

/-- A name as handed to the builder: either the raw identifier, or the
result of `resolve_namespace_prefix(nsPfx, name)` (recorded freely;
`ns = none` corresponds to the call with `nsPfx = None`). -/
inductive QName where
  | raw (name : Src)
  | res (ns : Option Src) (name : Src)
deriving DecidableEq, Repr

/-- The free builder's term values, one constructor per `term_*` hook of
the capability interface, plus the two call shapes of `combine_terms` that
occur in the parser: `comb op a b` records `combine_terms(a, op, b)` from
the expression loop (`op` is the operator text, a one-character string,
with the implicit-whitespace operator recorded as a space), and `wrap a`
records the list-mode call `combine_terms(term, None, None)`.  `notImpl`
is the `(src, NotImplemented)` value that flows through
`_parse_expression` when `term_unknown` declines (see
`term_unknown_default`). -/
inductive Term where
  | num (value : Src) (units : Option Src)
  | uri (value : Src)
  | str (value : Src)
  | func (name : Src) (params : Term)
  | rgb (value : Src)
  | urange (value : Src)
  | ident (name : QName)
  | comb (op : Src) (a : Term) (b : Term)
  | wrap (a : Term)
  | notImpl (raw : Src)
deriving DecidableEq, Repr

/-- One qualifier recorded on a selector, one constructor per mutating
hook of `CSSSelectorAbstract`. -/
inductive Qual where
  | hashId (value : Src)
  | cls (value : Src)
  | attr (name : QName)
  | attrOp (name : QName) (op : Src) (value : Src)
  | pseudo (name : Src)
  | pseudoFn (name : Src) (params : Term)
deriving DecidableEq, Repr

/-- The free builder's selector values: `selector(name)` yields
`simple name []`, and `combine_selectors(a, c, b)` yields `comb a c b`. -/
inductive Sel where
  | simple (name : QName) (quals : List Qual)
  | comb (a : Sel) (combiner : Char) (b : Sel)
deriving DecidableEq, Repr

/-- A qualifier hook call on a selector (mutation in the source, modelled
by rebuilding; the parser only ever qualifies freshly built simple
selectors). -/
def Sel.addQual : Sel → Qual → Sel
  | .simple n qs, q => .simple n (qs ++ [q])
  | .comb a c b, q => .comb a c (b.addQual q)

/-- Embedding of `property(name, value, important)` recorded freely (`important` is the
group-1 text of `re_important`, or `none`). -/
structure Decl where
  name : Src
  expr : Term
  important : Option Src
deriving DecidableEq, Repr

/-- One stylesheet element as returned by the builder hooks
(`ruleset`, `at_media`, `at_page`, `at_font_face`, `at_frame`,
`at_import`).  The free `at_media`/`at_import` hooks return their result
as a singleton list / element since the parser iterates or appends hook
results. -/
inductive Elem where
  | ruleset (sels : List Sel) (decls : List Decl)
  | media (mediums : List Src) (elems : List Elem)
  | page (pageKey : Option Src) (pseudopage : Option Src) (decls : List Decl)
  | fontFace (decls : List Decl)
  | frame (box : Option Src) (decls : List Decl)
  | atImportResult (uri : Src) (mediums : List Src)

/-- Result of `_parse_at_keyword`: a list of elements to extend the
stylesheet with, or the `NotImplemented` sentinel from a declined
`at_ident`. -/
inductive AtRes where
  | elems (es : List Elem)
  | notImplemented

/-- Embedding of `stylesheet(stylesheet_elements, stylesheet_imports)` recorded
freely. -/
structure Stylesheet where
  elements : List Elem
  imports : List Elem

/-- Embedded Python exceptions: `parseErr` is `CSSParseError(msg, src,
ctxsrc)` as raised; `pyRaise exn msg` is any other exception class
(`TypeError`, `IndexError`, `AttributeError`, `NotImplementedError`);
`outOfFuel` is the fuel bound of the embedding (not a Python behaviour). -/
inductive PErr where
  | parseErr (msg : String) (src : Src) (ctxsrc : Src)
  | pyRaise (exn : String) (msg : String)
  | outOfFuel
deriving DecidableEq, Repr

-- ~~~~~ the abstract builder defaults (CSSSelectorAbstract / CSSBuilderAbstract) ~~~~~

/-- Failure value of an abstract hook default: `NotImplementedError`. -/
inductive BErr where
  | notImplementedError (msg : String)
deriving DecidableEq, Repr

def CSSSelectorAbstract.add_hash_id (hashId : Src) : Except BErr Unit :=
  .error (.notImplementedError "Subclass responsibility")

def CSSSelectorAbstract.add_class (class_ : Src) : Except BErr Unit :=
  .error (.notImplementedError "Subclass responsibility")

def CSSSelectorAbstract.add_attribute (attrName : Src) : Except BErr Unit :=
  .error (.notImplementedError "Subclass responsibility")

def CSSSelectorAbstract.add_attribute_operation (attrName : Src) (op : Src) (attrValue : Src) : Except BErr Unit :=
  .error (.notImplementedError "Subclass responsibility")

def CSSSelectorAbstract.add_pseudo (name : Src) : Except BErr Unit :=
  .error (.notImplementedError "Subclass responsibility")

def CSSSelectorAbstract.add_pseudo_function (name : Src) (value : Term) : Except BErr Unit :=
  .error (.notImplementedError "Subclass responsibility")

def CSSBuilderAbstract.set_charset (charset : Src) : Except BErr Unit :=
  .error (.notImplementedError "Subclass responsibility")

def CSSBuilderAbstract.begin_stylesheet : Except BErr Unit :=
  .error (.notImplementedError "Subclass responsibility")

def CSSBuilderAbstract.stylesheet (elements : List Elem) : Except BErr Stylesheet :=
  .error (.notImplementedError "Subclass responsibility")

def CSSBuilderAbstract.end_stylesheet : Except BErr Unit :=
  .error (.notImplementedError "Subclass responsibility")

def CSSBuilderAbstract.begin_inline : Except BErr Unit :=
  .error (.notImplementedError "Subclass responsibility")

def CSSBuilderAbstract.inline (declarations : List Decl) : Except BErr (List Decl) :=
  .error (.notImplementedError "Subclass responsibility")

def CSSBuilderAbstract.end_inline : Except BErr Unit :=
  .error (.notImplementedError "Subclass responsibility")

def CSSBuilderAbstract.ruleset (selectors : List Sel) (declarations : List Decl) : Except BErr Elem :=
  .error (.notImplementedError "Subclass responsibility")

def CSSBuilderAbstract.resolve_ns (nsPfx : Option Src) (name : Src) : Except BErr QName :=
  .error (.notImplementedError "Subclass responsibility")

def CSSBuilderAbstract.at_charset (charset : Option Src) : Except BErr Unit :=
  .error (.notImplementedError "Subclass responsibility")

def CSSBuilderAbstract.at_import (import_ : Src) (mediums : List Src) : Except BErr (Option Elem) :=
  .error (.notImplementedError "Subclass responsibility")

def CSSBuilderAbstract.at_namespace (nsPfx : Option Src) (uri : Src) : Except BErr Unit :=
  .error (.notImplementedError "Subclass responsibility")

def CSSBuilderAbstract.at_media (mediums : List Src) (ruleset : List Elem) : Except BErr Elem :=
  .error (.notImplementedError "Subclass responsibility")

def CSSBuilderAbstract.at_page (page : Option Src) (pseudopage : Option Src) (declarations : List Decl) : Except BErr Elem :=
  .error (.notImplementedError "Subclass responsibility")

def CSSBuilderAbstract.at_font_face (declarations : List Decl) : Except BErr Elem :=
  .error (.notImplementedError "Subclass responsibility")

/-- The one non-raising default of the capability interface: `at_ident`
returns `(src, NotImplemented)` — it declines instead of failing loudly.
(The `cssParser` argument of the Python method carries no data relevant to
the default and is omitted.) -/
def CSSBuilderAbstract.at_ident (atIdent : Src) (src : Src) : Except BErr (Src × AtRes) :=
  .ok (src, .notImplemented)

def CSSBuilderAbstract.combine_selectors (selectorA : Sel) (combiner : Char) (selectorB : Sel) : Except BErr Sel :=
  .error (.notImplementedError "Subclass responsibility")

def CSSBuilderAbstract.selector (name : QName) : Except BErr Sel :=
  .error (.notImplementedError "Subclass responsibility")

def CSSBuilderAbstract.property (name : Src) (value : Term) (important : Option Src) : Except BErr Decl :=
  .error (.notImplementedError "Subclass responsibility")

def CSSBuilderAbstract.combine_terms (termA : Term) (combiner : Option Src) (termB : Option Term) : Except BErr Term :=
  .error (.notImplementedError "Subclass responsibility")

def CSSBuilderAbstract.term_ident (value : Src) : Except BErr Term :=
  .error (.notImplementedError "Subclass responsibility")

def CSSBuilderAbstract.term_number (value : Src) (units : Option Src) : Except BErr Term :=
  .error (.notImplementedError "Subclass responsibility")

def CSSBuilderAbstract.term_rgb (value : Src) : Except BErr Term :=
  .error (.notImplementedError "Subclass responsibility")

def CSSBuilderAbstract.term_uri (value : Src) : Except BErr Term :=
  .error (.notImplementedError "Subclass responsibility")

def CSSBuilderAbstract.term_string (value : Src) : Except BErr Term :=
  .error (.notImplementedError "Subclass responsibility")

def CSSBuilderAbstract.term_unicode_range (value : Src) : Except BErr Term :=
  .error (.notImplementedError "Subclass responsibility")

def CSSBuilderAbstract.term_function (name : Src) (value : Term) : Except BErr Term :=
  .error (.notImplementedError "Subclass responsibility")

def CSSBuilderAbstract.term_unknown (src : Src) : Except BErr Term :=
  .error (.notImplementedError "Subclass responsibility")

/-- Modelled from the spec: the concrete builder (`xhtml2pdf/w3c/css.py`)
is not under `src/`; per the spec its `term_unknown` hook "receives the
raw remaining source and either consumes some of it or signals total
failure", and `_parse_expression` tests the returned term against
`NotImplemented`, so the free builder's hook signals total failure by
returning its argument unconsumed together with the `NotImplemented`
sentinel. -/
def term_unknown_default (src : Src) : Src × Term := (src, .notImpl src)

-- ~~~~~ CSSParseError (error context) ~~~~~

/-- The `CSSParseError` instance state: message, failing fragment `src`,
context `ctxsrc`, optional full source, and the three offsets.  An offset
field is `none` exactly when the corresponding instance attribute was
`del`eted (or never assigned), exposing the `None` class attribute. -/
structure CSSParseErrorS where
  msg : String
  src : Src
  ctxsrc : Src
  fullsrc : Option Src := none
  inline : Bool := false
  srcCtxIdx : Option Int := none
  srcFullIdx : Option Int := none
  ctxsrcFullIdx : Option Int := none
deriving DecidableEq, Repr

/-- Embedding of `CSSParseError.__init__(msg, src, ctxsrc)`: `self.ctxsrc = ctxsrc or
src`; if `self.ctxsrc` is truthy, `srcCtxIdx = self.ctxsrc.find(self.src)`
and the attribute is deleted again (leaving `None`) when the search
returned a negative value. -/
def mkCSSParseError (msg : String) (src : Src) (ctxsrc0 : Option Src) : CSSParseErrorS :=
  let ctxsrc :=
    match ctxsrc0 with
    | some c => if c = [] then src else c
    | none => src
  let idx : Option Int :=
    if ctxsrc = [] then none
    else
      let i := pyFind ctxsrc src
      if i < 0 then none else some i
  { msg := msg, src := src, ctxsrc := ctxsrc, srcCtxIdx := idx }

/-- Embedding of `CSSParseError.setFullCSSSource(fullsrc, inline)`: records the full
source, sets `inline` only when the argument is truthy, and — when
`fullsrc` is truthy — computes `srcFullIdx = fullsrc.find(src)` and
`ctxsrcFullIdx = fullsrc.find(ctxsrc)`, deleting each attribute (leaving
`None`) when the search failed. -/
def setFullCSSSource (e : CSSParseErrorS) (fullsrc : Src) (inline : Bool) : CSSParseErrorS :=
  let e1 := { e with fullsrc := some fullsrc,
                     inline := if inline then inline else e.inline }
  if fullsrc = [] then e1
  else
    { e1 with
      srcFullIdx := (let i := pyFind fullsrc e.src; if i < 0 then none else some i),
      ctxsrcFullIdx := (let i := pyFind fullsrc e.ctxsrc; if i < 0 then none else some i) }

-- ~~~~~ small parser utilities ~~~~~

/-- Embedding of `_get_ident`: group 1 of `re_ident`, cursor unchanged on failure. -/
def get_ident (s : Src) : Option Src × Src :=
  match matchIdent s with
  | some (g, r) => (some g, r)
  | none => (none, s)

/-- Embedding of `_get_string(src)` (with `re_string`): see `matchString` for the
Python 3 group extraction; the cursor advances past the match even when
the extracted group is `None`. -/
def get_string_plain (s : Src) : Option Src × Src :=
  match matchString s with
  | some (g, r) => (g, r)
  | none => (none, s)

/-- Embedding of `_get_string(src, re_uri)`. -/
def get_string_uri (s : Src) : Option Src × Src :=
  match matchUri s with
  | some (g, r) => (g, r)
  | none => (none, s)

/-- Embedding of `_get_string_or_uri`: try the URI form first; on a `None` result
(including the consumed-but-`None` Python 3 cases) try the plain string on
the cursor the URI attempt left behind. -/
def get_string_or_uri (s : Src) : Option Src × Src :=
  let (r, s1) := get_string_uri s
  match r with
  | some _ => (r, s1)
  | none => get_string_plain s1

/-- Embedding of `[S|CDO|CDC]*` (`_parse_s_cdo_cdc`): strip whitespace and the SGML
comment markers.  Fuel = length + 1 is exact: each continuing iteration
consumes at least three characters. -/
def sCdoCdcGo : Nat → Src → Src
  | 0, s => s
  | n + 1, s =>
    let s1 := lstrip s
    if startsWithL s1 ['<', '!', '-', '-'] then sCdoCdcGo n (s1.drop 4)
    else if startsWithL s1 ['-', '-', '>'] then sCdoCdcGo n (s1.drop 3)
    else s1

/-- See `sCdoCdcGo`. -/
def sCdoCdc (s : Src) : Src := sCdoCdcGo (s.length + 1) s

/-- The selector-recovery skip of `_parse_selector`: after dropping one
character, advance to the next delimiter. -/
def selSkip : Src → Src
  | [] => []
  | c :: r =>
    if [',', ';', '\x7b', '\x7d', '[', ']', '(', ')'].contains c then c :: r
    else selSkip r

/-- Embedding of `attribute_operators`, in source order. -/
def attribute_operators : List Src :=
  [['='], ['~', '='], ['|', '='], ['&', '='], ['^', '='], ['!', '='], ['<', '>']]

/-- The `for op in attribute_operators: if src.startswith(op) … else op = ''`
loop: the first matching operator, `[]` when none matches. -/
def attr_op_match (s : Src) : Src :=
  match attribute_operators.find? (fun op => startsWithL s op) with
  | some op => op
  | none => []

/-- Embedding of `expression_operators`, in source order. -/
def expression_operators : List Src := [['/'], ['+'], [',']]

-- ~~~~~ the grammar engine ~~~~~

/-- Embedding of `_parse_at_charset` (`[ CHARSET_SYM S* STRING S* ';' ]?`); the
`at_charset` hook's return value is unused by the parser. -/
def parse_at_charset (src : Src) : Except PErr Src :=
  if is_at_rule_ident src "charset" then
    let ctxsrc := src
    let s1 := strip_at_rule_ident src
    let (_charset, s2) := get_string_plain s1
    let s3 := lstrip s2
    match s3 with
    | ';' :: r => .ok (lstrip r)
    | _ => .error (.parseErr "@charset expected a terminating \x27;\x27" s3 ctxsrc)
  else .ok src

/-- The signature of every fuelled production of `CSSParser`, one field
per method (loops of the Python bodies appear as their own `…_loop`
fields, carrying the loop state as arguments). -/
structure ParserFns where
  parse_stylesheet : Src → Except PErr (Src × Stylesheet)
  stylesheet_elements_loop : Src → List Elem → Except PErr (Src × List Elem)
  parse_at_imports : Src → Except PErr (Src × List Elem)
  at_import_medium_loop : Option Src → Src → List Src → Except PErr (Src × List Src)
  at_namespace_loop : Src → Except PErr Src
  parse_at_keyword : Src → Except PErr (Src × AtRes)
  parse_at_media : Src → Except PErr (Src × AtRes)
  at_media_medium_loop : Src → Src → List Src → Except PErr (Src × List Src)
  at_media_body_loop : Src → List Elem → Except PErr (Src × List Elem)
  parse_at_page : Src → Except PErr (Src × AtRes)
  at_page_body_loop : Src → List Elem → List Decl → Except PErr (Src × List Decl)
  parse_at_frame : Src → Except PErr (Src × AtRes)
  parse_at_font_face : Src → Except PErr (Src × AtRes)
  parse_at_ident : Src → Except PErr (Src × AtRes)
  parse_ruleset : Src → Except PErr (Src × Elem)
  parse_selector_group : Src → Except PErr (Src × List Sel)
  selector_group_loop : Src → List Sel → Except PErr (Src × List Sel)
  parse_selector : Src → Except PErr (Src × Option Sel)
  selector_comb_loop : Src → Sel → Nat → Except PErr (Src × Option Sel)
  parse_simple_selector : Src → Except PErr (Src × Sel)
  simple_selector_quals_loop : Src → Sel → Except PErr (Src × Sel)
  parse_selector_attribute : Src → Sel → Except PErr (Src × Sel)
  parse_selector_pseudo : Src → Sel → Except PErr (Src × Sel)
  parse_declaration_group : Src → Bool → Except PErr (Src × List Decl)
  declaration_loop : Src → Bool → Src → List Decl → Except PErr (Src × List Decl)
  parse_declaration : Src → Except PErr (Src × Option Decl)
  parse_declaration_property : Src → Src → Except PErr (Src × Decl)
  parse_expression : Src → Bool → Except PErr (Src × Term)
  expression_loop : Src → Term → Option Src → Except PErr (Src × Term × Option Src)
  parse_expression_term : Src → Except PErr (Src × Term)

/-- One fuel level of the engine: each body is the direct translation of
the corresponding `CSSParser` method, with every recursive call and loop
continuation going through `rec` (the next-lower fuel level). -/
def stepFns (rec : ParserFns) : ParserFns where

  -- `_parse_stylesheet`: strip comments, `@charset`, `[S|CDO|CDC]*`,
  -- `@import`*, `@namespace`*, then rulesets/at-rules until exhaustion;
  -- finally the `stylesheet(elements, imports)` hook.
  parse_stylesheet := fun src =>
    let s0 := stripComments src
    match parse_at_charset s0 with
    | .error e => .error e
    | .ok s1 =>
      let s2 := sCdoCdc s1
      match rec.parse_at_imports s2 with
      | .error e => .error e
      | .ok (s3, stylesheet_imports) =>
        match rec.at_namespace_loop (sCdoCdc s3) with
        | .error e => .error e
        | .ok s4 =>
          match rec.stylesheet_elements_loop s4 [] with
          | .error e => .error e
          | .ok (s5, stylesheet_elements) =>
            .ok (s5, { elements := stylesheet_elements, imports := stylesheet_imports })

  -- the `while src:` loop of `_parse_stylesheet`; a `NotImplemented`
  -- at-keyword result is skipped (`at_results != NotImplemented`).
  stylesheet_elements_loop := fun src acc =>
    match src with
    | [] => .ok (src, acc)
    | '@' :: _ =>
      match rec.parse_at_keyword src with
      | .error e => .error e
      | .ok (s1, atRes) =>
        let acc' := match atRes with
          | .elems es => acc ++ es
          | .notImplemented => acc
        rec.stylesheet_elements_loop (sCdoCdc s1) acc'
    | _ =>
      match rec.parse_ruleset src with
      | .error e => .error e
      | .ok (s1, el) => rec.stylesheet_elements_loop (sCdoCdc s1) (acc ++ [el])

  -- `_parse_at_imports` (`[ import [S|CDO|CDC]* ]*`); the free
  -- `at_import` hook records the import, which is never `None`, so every
  -- import is appended.
  parse_at_imports := fun src =>
    if is_at_rule_ident src "import" then
      let ctxsrc := src
      let s1 := strip_at_rule_ident src
      let (import_, s2) := get_string_or_uri s1
      match import_ with
      | none => .error (.parseErr "Import expecting string or url" s2 ctxsrc)
      | some imp =>
        let (m0, s3) := get_ident (lstrip s2)
        match rec.at_import_medium_loop m0 s3 [] with
        | .error e => .error e
        | .ok (s4, mediums0) =>
          let mediums := if mediums0 = [] then ["all".toList] else mediums0
          match s4 with
          | ';' :: r =>
            let elem := Elem.atImportResult imp mediums
            match rec.parse_at_imports (sCdoCdc (lstrip r)) with
            | .error e => .error e
            | .ok (s5, restElems) => .ok (s5, elem :: restElems)
          | _ => .error (.parseErr "@import expected a terminating \x27;\x27" s4 ctxsrc)
    else .ok (src, [])

  -- the medium list loop of `_parse_at_imports`.
  at_import_medium_loop := fun medium src acc =>
    match medium with
    | none => .ok (src, acc)
    | some m =>
      let acc' := acc ++ [m]
      match src with
      | ',' :: r =>
        let (m2, s2) := get_ident (lstrip r)
        rec.at_import_medium_loop m2 s2 acc'
      | _ => .ok (src, acc')

  -- the `while is_at_rule_ident(src, 'namespace')` loop of
  -- `_parse_at_namespace` (the caller applies the leading
  -- `_parse_s_cdo_cdc`); the `at_namespace` hook's return value is
  -- unused.
  at_namespace_loop := fun src =>
    if is_at_rule_ident src "namespace" then
      let ctxsrc := src
      let s1 := strip_at_rule_ident src
      let (namespace0, s2) := get_string_or_uri s1
      let afterDirective : Except PErr Src :=
        match namespace0 with
        | some _ => .ok s2
        | none =>
          let (nsPfx, s3) := get_ident s2
          match nsPfx with
          | none => .error (.parseErr "@namespace expected an identifier or a URI" s3 ctxsrc)
          | some _ =>
            let (namespace1, s4) := get_string_or_uri (lstrip s3)
            match namespace1 with
            | none => .error (.parseErr "@namespace expected a URI" s4 ctxsrc)
            | some _ => .ok s4
      match afterDirective with
      | .error e => .error e
      | .ok s5 =>
        match lstrip s5 with
        | ';' :: r => rec.at_namespace_loop (sCdoCdc (lstrip r))
        | s6 => .error (.parseErr "@namespace expected a terminating \x27;\x27" s6 ctxsrc)
    else .ok src

  -- `_parse_at_keyword`: dispatch on the at-rule keyword.
  parse_at_keyword := fun src =>
    if is_at_rule_ident src "media" then rec.parse_at_media src
    else if is_at_rule_ident src "page" then rec.parse_at_page src
    else if is_at_rule_ident src "font-face" then rec.parse_at_font_face src
    else if is_at_rule_ident src "import" then
      match rec.parse_at_imports src with
      | .error e => .error e
      | .ok (s, es) => .ok (s, .elems es)
    else if is_at_rule_ident src "frame" then rec.parse_at_frame src
    else if startsWithL src ['@'] then rec.parse_at_ident src
    else .error (.parseErr "Unknown state in atKeyword" src src)

  -- `_parse_at_media`.
  parse_at_media := fun src =>
    let ctxsrc := src
    let s1 := lstrip (src.drop 7)
    match rec.at_media_medium_loop s1 ctxsrc [] with
    | .error e => .error e
    | .ok (s2, mediums) =>
      match s2 with
      | '\x7b' :: r =>
        match rec.at_media_body_loop (lstrip r) [] with
        | .error e => .error e
        | .ok (s3, stylesheet_elements) =>
          match s3 with
          | '\x7d' :: r2 => .ok (lstrip r2, .elems [Elem.media mediums stylesheet_elements])
          | _ => .error (.parseErr "Ruleset closing \x27\x7d\x27 not found" s3 ctxsrc)
      | _ => .error (.parseErr "Ruleset opening \x27\x7b\x27 not found" s2 ctxsrc)

  -- the medium loop of `_parse_at_media`, including the literal-`and`
  -- concession: on `and`, `re.match('.*({.*)', src)` requires a `{` in
  -- the first line (else the `None` result's `.end()` raises
  -- `AttributeError`), and the cursor is repositioned to `end()-1`, the
  -- last character of the first line.  After a medium, `src[0]` raises
  -- `IndexError` on an exhausted cursor.
  at_media_medium_loop := fun src ctxsrc acc =>
    match src with
    | [] => .ok (src, acc)
    | '\x7b' :: _ => .ok (src, acc)
    | _ =>
      let (medium, s1) := get_ident src
      match medium with
      | none => .error (.parseErr "@media rule expected media identifier" s1 ctxsrc)
      | some m =>
        if m = "and".toList then
          let eol := match findSub s1 ['\n'] with | some i => i | none => s1.length
          if (s1.take eol).contains '\x7b' then .ok (s1.drop (eol - 1), acc)
          else .error (.pyRaise "AttributeError" "NoneType object has no attribute end")
        else
          let acc' := acc ++ [m]
          match s1 with
          | [] => .error (.pyRaise "IndexError" "string index out of range")
          | ',' :: r => rec.at_media_medium_loop (lstrip r) ctxsrc acc'
          | _ => rec.at_media_medium_loop (lstrip s1) ctxsrc acc'

  -- the nested ruleset/at-rule loop of `_parse_at_media`; here a
  -- `NotImplemented` at-keyword result is only checked against `None`,
  -- so `extend(NotImplemented)` raises `TypeError`.
  at_media_body_loop := fun src acc =>
    match src with
    | [] => .ok (src, acc)
    | '\x7d' :: _ => .ok (src, acc)
    | '@' :: _ =>
      match rec.parse_at_keyword src with
      | .error e => .error e
      | .ok (s1, .elems es) => rec.at_media_body_loop (lstrip s1) (acc ++ es)
      | .ok (_, .notImplemented) =>
        .error (.pyRaise "TypeError" "NotImplementedType object is not iterable")
    | _ =>
      match rec.parse_ruleset src with
      | .error e => .error e
      | .ok (s1, el) => rec.at_media_body_loop (lstrip s1) (acc ++ [el])

  -- `_parse_at_page`: optional page name, optional `:pseudo-page` joined
  -- with `_` (Python raises `TypeError` when the name — or the pseudo-page
  -- identifier — is absent, since `None + '_'` is unsupported), then a
  -- brace block of declarations interleaved with at-rules.
  parse_at_page := fun src =>
    let ctxsrc := src
    let s1 := lstrip (src.drop 6)
    let (page0, s2) := get_ident s1
    let joined : Except PErr (Option Src × Option Src × Src) :=
      match s2 with
      | ':' :: r =>
        let (pseudopage, s3) := get_ident r
        match page0, pseudopage with
        | some p, some pp => .ok (some ((p ++ ['_']) ++ pp), some pp, s3)
        | _, _ => .error (.pyRaise "TypeError" "unsupported operand type(s) for +: NoneType and str")
      | _ => .ok (page0, none, s2)
    match joined with
    | .error e => .error e
    | .ok (page, pseudopage, s4) =>
      match lstrip s4 with
      | '\x7b' :: r =>
        match rec.at_page_body_loop (lstrip r) [] [] with
        | .error e => .error e
        | .ok (s5, properties) =>
          .ok (lstrip (s5.drop 1), .elems [Elem.page page pseudopage properties])
      | s6 => .error (.parseErr "Ruleset opening \x27\x7b\x27 not found" s6 ctxsrc)

  -- the body loop of `_parse_at_page`: nested at-rules accumulate into a
  -- dead `stylesheet_elements` list (only the declarations reach the
  -- `at_page` hook); as in `@media`, a `NotImplemented` at-keyword result
  -- raises `TypeError` at `extend`.
  at_page_body_loop := fun src elemsAcc propsAcc =>
    match src with
    | [] => .ok (src, propsAcc)
    | '\x7d' :: _ => .ok (src, propsAcc)
    | '@' :: _ =>
      match rec.parse_at_keyword src with
      | .error e => .error e
      | .ok (s1, .elems es) => rec.at_page_body_loop (lstrip s1) (elemsAcc ++ es) propsAcc
      | .ok (_, .notImplemented) =>
        .error (.pyRaise "TypeError" "NotImplementedType object is not iterable")
    | _ =>
      match rec.parse_declaration_group (lstrip src) false with
      | .error e => .error e
      | .ok (s1, nproperties) => rec.at_page_body_loop (lstrip s1) elemsAcc (propsAcc ++ nproperties)

  -- `_parse_at_frame` (proprietary).
  parse_at_frame := fun src =>
    let s1 := lstrip (src.drop 7)
    let (box, s2) := get_ident s1
    match rec.parse_declaration_group (lstrip s2) true with
    | .error e => .error e
    | .ok (s3, properties) => .ok (lstrip s3, .elems [Elem.frame box properties])

  -- `_parse_at_font_face`.
  parse_at_font_face := fun src =>
    let s1 := lstrip (src.drop 11)
    match rec.parse_declaration_group s1 true with
    | .error e => .error e
    | .ok (s2, properties) => .ok (s2, .elems [Elem.fontFace properties])

  -- `_parse_at_ident`: the `at_ident` hook (here the declining default of
  -- `CSSBuilderAbstract`), then the skip-to-`;`-or-block recovery.  With
  -- a `;` present but no `{` before it, `semiIdx < blockIdx` compares
  -- `int` with `None` and raises `TypeError` (Python 3).  The
  -- declaration-group attempt falls back to a nested stylesheet parse
  -- only on `CSSParseError`.
  parse_at_ident := fun src =>
    let ctxsrc := src
    let (atIdent, s1) := get_ident (src.drop 1)
    match atIdent with
    | none => .error (.parseErr "At-rule expected an identifier for the rule" s1 ctxsrc)
    | some ai =>
      match CSSBuilderAbstract.at_ident ai s1 with
      | .error (.notImplementedError m) => .error (.pyRaise "NotImplementedError" m)
      | .ok (s2, .elems es) => .ok (lstrip s2, .elems es)
      | .ok (s2, .notImplemented) =>
        let semiIdx : Option Nat := findSub s2 [';']
        let blockIdx : Option Nat :=
          findSub (match semiIdx with | some i => s2.take i | none => s2) ['\x7b']
        match semiIdx, blockIdx with
        | some si, some bi =>
          if si < bi then .ok (lstrip (lstrip (s2.drop (si + 1))), .notImplemented)
          else
            match rec.parse_declaration_group (s2.drop bi) true with
            | .ok (s4, _) => .ok (lstrip s4, .notImplemented)
            | .error (.parseErr _ _ _) =>
              match rec.parse_stylesheet (s2.drop bi) with
              | .ok (s5, _) => .ok (lstrip s5, .notImplemented)
              | .error e => .error e
            | .error e => .error e
        | some _, none =>
          .error (.pyRaise "TypeError" "\x27<\x27 not supported between instances of \x27int\x27 and \x27NoneType\x27")
        | none, none => .ok (lstrip [], .notImplemented)
        | none, some bi =>
          match rec.parse_declaration_group (s2.drop bi) true with
          | .ok (s4, _) => .ok (lstrip s4, .notImplemented)
          | .error (.parseErr _ _ _) =>
            match rec.parse_stylesheet (s2.drop bi) with
            | .ok (s5, _) => .ok (lstrip s5, .notImplemented)
            | .error e => .error e
          | .error e => .error e

  -- `_parse_ruleset`: selector group, declaration block, `ruleset` hook.
  parse_ruleset := fun src =>
    match rec.parse_selector_group src with
    | .error e => .error e
    | .ok (s1, selectors) =>
      match rec.parse_declaration_group (lstrip s1) true with
      | .error e => .error e
      | .ok (s2, properties) => .ok (s2, Elem.ruleset selectors properties)

  -- `_parse_selector_group`.
  parse_selector_group := fun src => rec.selector_group_loop src []

  -- the loop of `_parse_selector_group`: stops at a delimiter or on a
  -- `None` selector (the recovery result of `_parse_selector`).
  selector_group_loop := fun src acc =>
    if stopAt src ['\x7b', '\x7d', ']', '(', ')', ';'] then .ok (src, acc)
    else
      match rec.parse_selector src with
      | .error e => .error e
      | .ok (s1, none) => .ok (s1, acc)
      | .ok (s1, some sel) =>
        let acc' := acc ++ [sel]
        match s1 with
        | ',' :: r => rec.selector_group_loop (lstrip r) acc'
        | _ => rec.selector_group_loop s1 acc'

  -- `_parse_selector`: a simple selector followed by the combinator loop,
  -- with `srcLen` recorded once for the no-shrink recovery test.
  parse_selector := fun src =>
    match rec.parse_simple_selector src with
    | .error e => .error e
    | .ok (s1, selector) => rec.selector_comb_loop s1 selector s1.length

  -- the `[ combinator simple_selector ]*` loop of `_parse_selector`; when
  -- the second simple-selector parse fails to shrink the cursor below
  -- `srcLen`, skip one character, advance to the next delimiter and yield
  -- a `None` selector.
  selector_comb_loop := fun src selector srcLen =>
    if stopAt src [',', ';', '\x7b', '\x7d', '[', ']', '(', ')'] then .ok (lstrip src, some selector)
    else
      let (combiner, s1) : Char × Src :=
        if startsWithL src ['+'] then ('+', lstrip (src.drop 1))
        else if startsWithL src ['>'] then ('>', lstrip (src.drop 1))
        else (' ', src)
      match rec.parse_simple_selector s1 with
      | .error e => .error e
      | .ok (s2, selectorB) =>
        if srcLen ≤ s2.length then .ok (lstrip (selSkip (s2.drop 1)), none)
        else rec.selector_comb_loop s2 (Sel.comb selector combiner selectorB) srcLen

  -- `_parse_simple_selector`: optional namespace prefix, element name or
  -- `*` (defaulted when a qualifier follows), `resolve_namespace_prefix`
  -- and `selector` hooks, then the qualifier loop.
  parse_simple_selector := fun src =>
    let ctxsrc := lstrip src
    let (nsPfx, s1) :=
      match matchNamespaceSel src with
      | some (g, r) => (some g, r)
      | none => (none, src)
    let (name0, s2) :=
      match matchElementName s1 with
      | some (g, r) => (some g, r)
      | none => (none, s1)
    let named : Except PErr Src :=
      match name0 with
      | some n => .ok n
      | none =>
        if stopAt s2 ['#', '.', '[', ':'] && s2 ≠ [] then .ok ['*']
        else .error (.parseErr "Selector name or qualifier expected" s2 ctxsrc)
    match named with
    | .error e => .error e
    | .ok name =>
      let selector := Sel.simple (QName.res nsPfx name) []
      rec.simple_selector_quals_loop s2 selector

  -- the `[ HASH | class | attrib | pseudo ]*` loop of
  -- `_parse_simple_selector`.
  simple_selector_quals_loop := fun src selector =>
    match src with
    | [] => .ok (lstrip src, selector)
    | c :: _ =>
      if ¬ ['#', '.', '[', ':'].contains c then .ok (lstrip src, selector)
      else
        match matchHash src with
        | some (h, r) => rec.simple_selector_quals_loop r (selector.addQual (.hashId h))
        | none =>
          match matchClass src with
          | some (cl, r) => rec.simple_selector_quals_loop r (selector.addQual (.cls cl))
          | none =>
            if c = '[' then
              match rec.parse_selector_attribute src selector with
              | .error e => .error e
              | .ok (s1, sel') => rec.simple_selector_quals_loop s1 sel'
            else if c = ':' then
              match rec.parse_selector_pseudo src selector with
              | .error e => .error e
              | .ok (s1, sel') => rec.simple_selector_quals_loop s1 sel'
            else .ok (lstrip src, selector)

  -- `_parse_selector_attribute`: `[` name, optional recognized operator
  -- with identifier-or-string value, `]`; `add_attribute_operation` /
  -- `add_attribute` hooks.
  parse_selector_attribute := fun src selector =>
    let ctxsrc := src
    match src with
    | '[' :: r0 =>
      let s1 := lstrip r0
      let (nsPfx, s2) :=
        match matchNamespaceSel s1 with
        | some (g, r) => (some g, r)
        | none => (none, s1)
      let (attrName0, s3) := get_ident s2
      let s4 := lstrip s3
      match attrName0 with
      | none => .error (.parseErr "Expected a selector attribute name" s4 ctxsrc)
      | some an =>
        let attrName : QName :=
          match nsPfx with
          | some p => QName.res (some p) an
          | none => QName.raw an
        let op := attr_op_match s4
        let s5 := lstrip (s4.drop op.length)
        let valued : Except PErr (Option Src × Src) :=
          if op = [] then .ok (none, s5)
          else
            let (v1, s6) := get_ident s5
            match v1 with
            | some v => .ok (some v, s6)
            | none =>
              let (v2, s7) := get_string_plain s6
              match v2 with
              | some v => .ok (some v, s7)
              | none => .error (.parseErr "Expected a selector attribute value" s7 ctxsrc)
        match valued with
        | .error e => .error e
        | .ok (attrValue, s8) =>
          match s8 with
          | ']' :: r =>
            match op, attrValue with
            | _ :: _, some v => .ok (r, selector.addQual (.attrOp attrName op v))
            | _, _ => .ok (r, selector.addQual (.attr attrName))
          | _ => .error (.parseErr "Selector Attribute closing \x27]\x27 not found" s8 ctxsrc)
    | _ => .error (.parseErr "Selector Attribute opening \x27[\x27 not found" src ctxsrc)

  -- `_parse_selector_pseudo`: `:{1,2}`, identifier, optional
  -- parenthesized expression in list mode; `add_pseudo_function` /
  -- `add_pseudo` hooks.
  parse_selector_pseudo := fun src selector =>
    let ctxsrc := src
    match src with
    | ':' :: r1 =>
      let s1 := match r1 with | ':' :: r2 => r2 | _ => r1
      let (name0, s2) := get_ident s1
      match name0 with
      | none => .error (.parseErr "Selector Pseudo identifier not found" s2 ctxsrc)
      | some name =>
        match s2 with
        | '(' :: r3 =>
          match rec.parse_expression (lstrip r3) true with
          | .error e => .error e
          | .ok (s3, term) =>
            match s3 with
            | ')' :: r4 => .ok (r4, selector.addQual (.pseudoFn name term))
            | _ => .error (.parseErr "Selector Pseudo Function closing \x27)\x27 not found" s3 ctxsrc)
        | _ => .ok (s2, selector.addQual (.pseudo name))
    | _ => .error (.parseErr "Selector Pseudo \x27:\x27 not found" src ctxsrc)

  -- `_parse_declaration_group`: optional enclosing braces, then the
  -- declaration loop.
  parse_declaration_group := fun src braces =>
    let ctxsrc := src
    match src with
    | '\x7b' :: r => rec.declaration_loop (lstrip r) true ctxsrc []
    | _ =>
      if braces then .error (.parseErr "Declaration group opening \x27\x7b\x27 not found" src ctxsrc)
      else rec.declaration_loop (lstrip src) false ctxsrc []

  -- the declaration loop of `_parse_declaration_group`, including the
  -- `*font`-hack neutralization (which `continue`s, discarding the
  -- just-parsed property) and the closing-brace epilogue.
  declaration_loop := fun src braces ctxsrc acc =>
    if stopAt src [',', '\x7b', '\x7d', '[', ']', '(', ')', '@'] then
      if braces then
        match src with
        | '\x7d' :: r => .ok (lstrip r, acc)
        | _ => .error (.parseErr "Declaration group closing \x27\x7d\x27 not found" src ctxsrc)
      else .ok (lstrip src, acc)
    else
      match rec.parse_declaration src with
      | .error e => .error e
      | .ok (s1, property) =>
        match s1 with
        | '*' :: r => rec.declaration_loop ("-nothing-".toList ++ r) braces ctxsrc acc
        | _ =>
          match property with
          | none =>
            if braces then
              match s1 with
              | '\x7d' :: r => .ok (lstrip r, acc)
              | _ => .error (.parseErr "Declaration group closing \x27\x7d\x27 not found" s1 ctxsrc)
            else .ok (lstrip s1, acc)
          | some prop =>
            let acc' := acc ++ [prop]
            match s1 with
            | ';' :: r => rec.declaration_loop (lstrip r) braces ctxsrc acc'
            | _ =>
              if braces then
                match s1 with
                | '\x7d' :: r => .ok (lstrip r, acc')
                | _ => .error (.parseErr "Declaration group closing \x27\x7d\x27 not found" s1 ctxsrc)
              else .ok (lstrip s1, acc')

  -- `_parse_declaration`: empty on a missing identifier; `:` required
  -- only loosely (`:`/`=`/nothing all accepted).
  parse_declaration := fun src =>
    let (property_name, s1) := get_ident src
    match property_name with
    | none => .ok (s1, none)
    | some nm =>
      let s2 := lstrip s1
      let s3 :=
        match s2 with
        | ':' :: r => lstrip r
        | '=' :: r => lstrip r
        | _ => s2
      match rec.parse_declaration_property s3 nm with
      | .error e => .error e
      | .ok (s4, property) => .ok (s4, some property)

  -- `_parse_declaration_property`: expression, optional `!important`,
  -- `property` hook.
  parse_declaration_property := fun src propertyName =>
    match rec.parse_expression src false with
    | .error e => .error e
    | .ok (s1, expr) =>
      let (important, s2) :=
        match matchImportant s1 with
        | some (g, r) => (some g, r)
        | none => (none, s1)
      let s3 := lstrip s2
      .ok (s3, { name := propertyName, expr := expr, important := important })

  -- `_parse_expression`: first term, operator/term loop, and the
  -- list-mode single-term wrap `combine_terms(term, None, None)` when no
  -- operator was ever seen.
  parse_expression := fun src returnList =>
    match rec.parse_expression_term src with
    | .error e => .error e
    | .ok (s1, term) =>
      match rec.expression_loop s1 term none with
      | .error e => .error e
      | .ok (s2, term', operator) =>
        if operator = none && returnList then .ok (s2, Term.wrap term')
        else .ok (s2, term')

  -- the `[ operator term ]*` loop of `_parse_expression`; `operator`
  -- starts as `None` and records the last operator seen (explicit, or a
  -- space for implicit whitespace); a `NotImplemented` term breaks the
  -- loop after the operator was consumed.
  expression_loop := fun src term operator =>
    if stopAt src [';', '\x7b', '\x7d', '[', ']', ')'] then .ok (src, term, operator)
    else
      let (op', s1) :=
        match expression_operators.find? (fun op => startsWithL src op) with
        | some op => (op, src.drop op.length)
        | none => ([' '], src)
      match rec.parse_expression_term (lstrip s1) with
      | .error e => .error e
      | .ok (s2, .notImpl r) => .ok (s2, term, some op')
      | .ok (s2, term2) =>
        rec.expression_loop s2 (Term.comb op' term term2) (some op')

  -- `_parse_expression_term`: the fixed cascade of term kinds.  The
  -- Python 3 `_get_string` quirk makes a single-quoted string or a
  -- single-quoted/bare URI consume its source while yielding `None`, so
  -- later kinds are then tried on the shortened cursor; a matching
  -- unicode range raises `IndexError` (the pattern has no group 1); and
  -- an exhausted cursor after a function body raises `IndexError` at
  -- `src[0]`.
  parse_expression_term := fun src =>
    let ctxsrc := src
    match matchNum src with
    | some (value, s1) =>
      let (units, s2) := matchUnit s1
      .ok (lstrip s2, Term.num value units)
    | none =>
      match get_string_uri src with
      | (some value, s1) => .ok (lstrip s1, Term.uri value)
      | (none, s1) =>
        match get_string_plain s1 with
        | (some value, s2) => .ok (lstrip s2, Term.str value)
        | (none, s2) =>
          match matchFunctionTerm s2 with
          | some (fname, s3) =>
            match rec.parse_expression s3 true with
            | .error e => .error e
            | .ok (s4, params) =>
              match s4 with
              | ')' :: r => .ok (lstrip r, Term.func fname params)
              | [] => .error (.pyRaise "IndexError" "string index out of range")
              | _ => .error (.parseErr "Terminal function expression expected closing \x27)\x27" s4 ctxsrc)
          | none =>
            match matchRgb s2 with
            | some (value, s3) => .ok (lstrip s3, Term.rgb value)
            | none =>
              match matchUnicodeRange s2 with
              | some _ => .error (.pyRaise "IndexError" "no such group")
              | none =>
                let (nsPfx, s3) :=
                  match matchNamespaceSel s2 with
                  | some (g, r) => (some g, r)
                  | none => (none, s2)
                match get_ident s3 with
                | (some value, s4) =>
                  let nm := match nsPfx with
                    | some p => QName.res (some p) value
                    | none => QName.raw value
                  .ok (lstrip s4, Term.ident nm)
                | (none, s4) =>
                  match matchUnicodeId s4 with
                  | some (value, s5) => .ok (lstrip s5, Term.ident (QName.raw value))
                  | none =>
                    let (s6, t) := term_unknown_default s4
                    .ok (s6, t)

/-- The zero-fuel level: every production reports `outOfFuel`. -/
def botFns : ParserFns where
  parse_stylesheet := fun _ => .error .outOfFuel
  stylesheet_elements_loop := fun _ _ => .error .outOfFuel
  parse_at_imports := fun _ => .error .outOfFuel
  at_import_medium_loop := fun _ _ _ => .error .outOfFuel
  at_namespace_loop := fun _ => .error .outOfFuel
  parse_at_keyword := fun _ => .error .outOfFuel
  parse_at_media := fun _ => .error .outOfFuel
  at_media_medium_loop := fun _ _ _ => .error .outOfFuel
  at_media_body_loop := fun _ _ => .error .outOfFuel
  parse_at_page := fun _ => .error .outOfFuel
  at_page_body_loop := fun _ _ _ => .error .outOfFuel
  parse_at_frame := fun _ => .error .outOfFuel
  parse_at_font_face := fun _ => .error .outOfFuel
  parse_at_ident := fun _ => .error .outOfFuel
  parse_ruleset := fun _ => .error .outOfFuel
  parse_selector_group := fun _ => .error .outOfFuel
  selector_group_loop := fun _ _ => .error .outOfFuel
  parse_selector := fun _ => .error .outOfFuel
  selector_comb_loop := fun _ _ _ => .error .outOfFuel
  parse_simple_selector := fun _ => .error .outOfFuel
  simple_selector_quals_loop := fun _ _ => .error .outOfFuel
  parse_selector_attribute := fun _ _ => .error .outOfFuel
  parse_selector_pseudo := fun _ _ => .error .outOfFuel
  parse_declaration_group := fun _ _ => .error .outOfFuel
  declaration_loop := fun _ _ _ _ => .error .outOfFuel
  parse_declaration := fun _ => .error .outOfFuel
  parse_declaration_property := fun _ _ => .error .outOfFuel
  parse_expression := fun _ _ => .error .outOfFuel
  expression_loop := fun _ _ _ => .error .outOfFuel
  parse_expression_term := fun _ => .error .outOfFuel

/-- The engine at a given fuel level. -/
def fns : Nat → ParserFns
  | 0 => botFns
  | n + 1 => stepFns (fns n)

def parse_stylesheet (fuel : Nat) (src : Src) : Except PErr (Src × Stylesheet) :=
  (fns fuel).parse_stylesheet src

def stylesheet_elements_loop (fuel : Nat) (src : Src) (acc : List Elem) : Except PErr (Src × List Elem) :=
  (fns fuel).stylesheet_elements_loop src acc

def parse_at_imports (fuel : Nat) (src : Src) : Except PErr (Src × List Elem) :=
  (fns fuel).parse_at_imports src

def at_import_medium_loop (fuel : Nat) (medium : Option Src) (src : Src) (acc : List Src) : Except PErr (Src × List Src) :=
  (fns fuel).at_import_medium_loop medium src acc

def at_namespace_loop (fuel : Nat) (src : Src) : Except PErr Src :=
  (fns fuel).at_namespace_loop src

def parse_at_keyword (fuel : Nat) (src : Src) : Except PErr (Src × AtRes) :=
  (fns fuel).parse_at_keyword src

def parse_at_media (fuel : Nat) (src : Src) : Except PErr (Src × AtRes) :=
  (fns fuel).parse_at_media src

def at_media_medium_loop (fuel : Nat) (src ctxsrc : Src) (acc : List Src) : Except PErr (Src × List Src) :=
  (fns fuel).at_media_medium_loop src ctxsrc acc

def at_media_body_loop (fuel : Nat) (src : Src) (acc : List Elem) : Except PErr (Src × List Elem) :=
  (fns fuel).at_media_body_loop src acc

def parse_at_page (fuel : Nat) (src : Src) : Except PErr (Src × AtRes) :=
  (fns fuel).parse_at_page src

def at_page_body_loop (fuel : Nat) (src : Src) (elemsAcc : List Elem) (propsAcc : List Decl) : Except PErr (Src × List Decl) :=
  (fns fuel).at_page_body_loop src elemsAcc propsAcc

def parse_at_frame (fuel : Nat) (src : Src) : Except PErr (Src × AtRes) :=
  (fns fuel).parse_at_frame src

def parse_at_font_face (fuel : Nat) (src : Src) : Except PErr (Src × AtRes) :=
  (fns fuel).parse_at_font_face src

def parse_at_ident (fuel : Nat) (src : Src) : Except PErr (Src × AtRes) :=
  (fns fuel).parse_at_ident src

def parse_ruleset (fuel : Nat) (src : Src) : Except PErr (Src × Elem) :=
  (fns fuel).parse_ruleset src

def parse_selector_group (fuel : Nat) (src : Src) : Except PErr (Src × List Sel) :=
  (fns fuel).parse_selector_group src

def selector_group_loop (fuel : Nat) (src : Src) (acc : List Sel) : Except PErr (Src × List Sel) :=
  (fns fuel).selector_group_loop src acc

def parse_selector (fuel : Nat) (src : Src) : Except PErr (Src × Option Sel) :=
  (fns fuel).parse_selector src

def selector_comb_loop (fuel : Nat) (src : Src) (selector : Sel) (srcLen : Nat) : Except PErr (Src × Option Sel) :=
  (fns fuel).selector_comb_loop src selector srcLen

def parse_simple_selector (fuel : Nat) (src : Src) : Except PErr (Src × Sel) :=
  (fns fuel).parse_simple_selector src

def simple_selector_quals_loop (fuel : Nat) (src : Src) (selector : Sel) : Except PErr (Src × Sel) :=
  (fns fuel).simple_selector_quals_loop src selector

def parse_selector_attribute (fuel : Nat) (src : Src) (selector : Sel) : Except PErr (Src × Sel) :=
  (fns fuel).parse_selector_attribute src selector

def parse_selector_pseudo (fuel : Nat) (src : Src) (selector : Sel) : Except PErr (Src × Sel) :=
  (fns fuel).parse_selector_pseudo src selector

def parse_declaration_group (fuel : Nat) (src : Src) (braces : Bool) : Except PErr (Src × List Decl) :=
  (fns fuel).parse_declaration_group src braces

def declaration_loop (fuel : Nat) (src : Src) (braces : Bool) (ctxsrc : Src) (acc : List Decl) : Except PErr (Src × List Decl) :=
  (fns fuel).declaration_loop src braces ctxsrc acc

def parse_declaration (fuel : Nat) (src : Src) : Except PErr (Src × Option Decl) :=
  (fns fuel).parse_declaration src

def parse_declaration_property (fuel : Nat) (src : Src) (propertyName : Src) : Except PErr (Src × Decl) :=
  (fns fuel).parse_declaration_property src propertyName

def parse_expression (fuel : Nat) (src : Src) (returnList : Bool) : Except PErr (Src × Term) :=
  (fns fuel).parse_expression src returnList

def expression_loop (fuel : Nat) (src : Src) (term : Term) (operator : Option Src) : Except PErr (Src × Term × Option Src) :=
  (fns fuel).expression_loop src term operator

def parse_expression_term (fuel : Nat) (src : Src) : Except PErr (Src × Term) :=
  (fns fuel).parse_expression_term src

-- ~~~~~ public entry points ~~~~~

/-- Builder lifecycle hook calls observable at the entry points (the
grammar-engine productions themselves never invoke a lifecycle hook; the
`inline` result hook of the inline modes is also recorded). -/
inductive LifeEvent where
  | beginStylesheet
  | endStylesheet
  | beginInline
  | inlineHook
  | endInline
deriving DecidableEq, Repr

/-- A failure escaping an entry point: a `CSSParseError` with the full
source attached by `setFullCSSSource`, another Python exception, or the
fuel bound. -/
inductive FinalErr where
  | css (e : CSSParseErrorS)
  | pyRaise (exn : String) (msg : String)
  | outOfFuel
deriving DecidableEq, Repr

/-- Modelled from the spec: `cleanup_css` lives in
`xhtml2pdf/w3c/cssSpecial.py`, which is not under `src/`; the spec
describes it only as "simple preprocessing" with no specified
transformation, so it is modelled as the identity. -/
def cleanup_css (src : Src) : Src := src

/-- Embedding of `CSSParser.parse`: `begin_stylesheet()`, then (inside `try…finally`)
`cleanup_css` and `_parse_stylesheet`, attaching the full (cleaned) source
to a propagating `CSSParseError`; `end_stylesheet()` runs in the
`finally` whether the body returned or raised — hence the event list of
both branches.  The grammar engine never calls a lifecycle hook, so the
body contributes no events. -/
def parse (fuel : Nat) (src : Src) : List LifeEvent × Except FinalErr Stylesheet :=
  let src1 := cleanup_css src
  let body : Except FinalErr Stylesheet :=
    match parse_stylesheet fuel src1 with
    | .ok (_, stylesheet) => .ok stylesheet
    | .error (.parseErr msg esrc ectx) =>
      .error (.css (setFullCSSSource (mkCSSParseError msg esrc (some ectx)) src1 false))
    | .error (.pyRaise exn m) => .error (.pyRaise exn m)
    | .error .outOfFuel => .error .outOfFuel
  match body with
  | .ok stylesheet => ([.beginStylesheet, .endStylesheet], .ok stylesheet)
  | .error e => ([.beginStylesheet, .endStylesheet], .error e)

/-- Embedding of `CSSParser.parse_inline`: `begin_inline()`, then (inside
`try…finally`) a brace-less declaration group on the stripped source —
attaching the full source with `inline=True` to a propagating
`CSSParseError` (the local `src` variable is unchanged when the call
raises, so the unstripped source is attached) — then the `inline` hook;
`end_inline()` runs in the `finally` on both paths. -/
def parse_inline (fuel : Nat) (src : Src) : List LifeEvent × Except FinalErr (List Decl) :=
  let body : Except FinalErr (List Decl) :=
    match parse_declaration_group fuel (pyStrip src) false with
    | .ok (_, properties) => .ok properties
    | .error (.parseErr msg esrc ectx) =>
      .error (.css (setFullCSSSource (mkCSSParseError msg esrc (some ectx)) src true))
    | .error (.pyRaise exn m) => .error (.pyRaise exn m)
    | .error .outOfFuel => .error .outOfFuel
  match body with
  | .ok properties => ([.beginInline, .inlineHook, .endInline], .ok properties)
  | .error e => ([.beginInline, .endInline], .error e)

/-- The attribute loop of `CSSParser.parse_attributes`: each value is
independently parsed as one declaration's expression; the first
`CSSParseError` gets the (unstripped) attribute value attached as full
source and aborts the loop. -/
def parse_attributes_loop (fuel : Nat) : List (Src × Src) → Except FinalErr (List Decl)
  | [] => .ok []
  | (propertyName, src) :: rest =>
    match parse_declaration_property fuel (pyStrip src) propertyName with
    | .ok (_, property) =>
      match parse_attributes_loop fuel rest with
      | .ok properties => .ok (property :: properties)
      | .error e => .error e
    | .error (.parseErr msg esrc ectx) =>
      .error (.css (setFullCSSSource (mkCSSParseError msg esrc (some ectx)) src true))
    | .error (.pyRaise exn m) => .error (.pyRaise exn m)
    | .error .outOfFuel => .error .outOfFuel

/-- Embedding of `CSSParser.parse_attributes`: `begin_inline()`, the attribute loop
inside `try…finally`, the `inline` hook on success, and `end_inline()` on
both paths. -/
def parse_attributes (fuel : Nat) (kwAttributes : List (Src × Src)) :
    List LifeEvent × Except FinalErr (List Decl) :=
  match parse_attributes_loop fuel kwAttributes with
  | .ok properties => ([.beginInline, .inlineHook, .endInline], .ok properties)
  | .error e => ([.beginInline, .endInline], .error e)

-- ~~~~~ helper lemmas ~~~~~

theorem lstrip_lstrip (s : Src) : lstrip (lstrip s) = lstrip s := by
  induction s with
  | nil => rfl
  | cons c t ih =>
    by_cases h : pyIsSpace c
    · simpa [lstrip, List.dropWhile, h] using ih
    · simp [lstrip, List.dropWhile, h]

/-- Embedding of `pat` occurs in `hay` (at some offset). -/
def Occurs (pat hay : Src) : Prop := ∃ i, startsWithL (hay.drop i) pat = true

theorem findSub_eq_none_iff (s pat : Src) :
    findSub s pat = none ↔ ∀ i, startsWithL (s.drop i) pat = false := by
  induction s with
  | nil =>
    cases hs : startsWithL [] pat
    · constructor
      · intro _ i
        rw [List.drop_nil]
        exact hs
      · intro _
        simp [findSub, hs]
    · constructor
      · intro hn
        exfalso
        simp [findSub, hs] at hn
      · intro hall
        exfalso
        have h0 := hall 0
        rw [List.drop_nil, hs] at h0
        exact absurd h0 (by simp)
  | cons c t ih =>
    cases hs : startsWithL (c :: t) pat
    · have heq : findSub (c :: t) pat = (findSub t pat).map (· + 1) := by
        simp [findSub, hs]
      constructor
      · intro hn i
        rw [heq, Option.map_eq_none'] at hn
        match i with
        | 0 => simpa using hs
        | i + 1 => simpa using (ih.mp hn) i
      · intro hall
        rw [heq, Option.map_eq_none']
        exact ih.mpr fun i => by simpa using hall (i + 1)
    · constructor
      · intro hn
        exfalso
        simp [findSub, hs] at hn
      · intro hall
        exfalso
        have h0 := hall 0
        rw [List.drop_zero, hs] at h0
        exact absurd h0 (by simp)

theorem findSub_eq_some (s pat : Src) (n : Nat) :
    findSub s pat = some n →
    startsWithL (s.drop n) pat = true ∧ ∀ m, m < n → startsWithL (s.drop m) pat = false := by
  induction s generalizing n with
  | nil =>
    intro h
    cases hs : startsWithL [] pat
    · exfalso
      simp [findSub, hs] at h
    · have hn : n = 0 := by
        simp [findSub, hs] at h
        omega
      subst hn
      exact ⟨by rw [List.drop_nil]; exact hs, by omega⟩
  | cons c t ih =>
    intro h
    cases hs : startsWithL (c :: t) pat
    · have heq : findSub (c :: t) pat = (findSub t pat).map (· + 1) := by
        simp [findSub, hs]
      rw [heq, Option.map_eq_some'] at h
      obtain ⟨k, hk, hkn⟩ := h
      subst hkn
      obtain ⟨h1, h2⟩ := ih k hk
      refine ⟨by simpa using h1, ?_⟩
      intro m hm
      match m with
      | 0 => simpa using hs
      | m + 1 => simpa using h2 m (by omega)
    · have hn : n = 0 := by
        simp [findSub, hs] at h
        omega
      subst hn
      exact ⟨by rw [List.drop_zero]; exact hs, by omega⟩

-- ~~~~~ unfolding equations (each proved by `rfl` against the engine) ~~~~~

theorem parse_selector_succ (n : Nat) (src : Src) :
    parse_selector (n + 1) src =
      match parse_simple_selector n src with
      | .error e => .error e
      | .ok (s1, selector) => selector_comb_loop n s1 selector s1.length := rfl

theorem selector_comb_loop_succ (n : Nat) (src : Src) (selector : Sel) (srcLen : Nat) :
    selector_comb_loop (n + 1) src selector srcLen =
      (if stopAt src [',', ';', '\x7b', '\x7d', '[', ']', '(', ')'] then .ok (lstrip src, some selector)
       else
         let cs : Char × Src :=
           if startsWithL src ['+'] then ('+', lstrip (src.drop 1))
           else if startsWithL src ['>'] then ('>', lstrip (src.drop 1))
           else (' ', src)
         match parse_simple_selector n cs.2 with
         | .error e => .error e
         | .ok (s2, selectorB) =>
           if srcLen ≤ s2.length then .ok (lstrip (selSkip (s2.drop 1)), none)
           else selector_comb_loop n s2 (Sel.comb selector cs.1 selectorB) srcLen) := rfl

theorem parse_expression_succ (n : Nat) (src : Src) (returnList : Bool) :
    parse_expression (n + 1) src returnList =
      match parse_expression_term n src with
      | .error e => .error e
      | .ok (s1, term) =>
        match expression_loop n s1 term none with
        | .error e => .error e
        | .ok (s2, term', operator) =>
          if operator = none && returnList then .ok (s2, Term.wrap term')
          else .ok (s2, term') := rfl

theorem expression_loop_succ (n : Nat) (src : Src) (term : Term) (operator : Option Src) :
    expression_loop (n + 1) src term operator =
      (if stopAt src [';', '\x7b', '\x7d', '[', ']', ')'] then .ok (src, term, operator)
       else
         let os : Src × Src :=
           match expression_operators.find? (fun op => startsWithL src op) with
           | some op => (op, src.drop op.length)
           | none => ([' '], src)
         match parse_expression_term n (lstrip os.2) with
         | .error e => .error e
         | .ok (s2, .notImpl r) => .ok (s2, term, some os.1)
         | .ok (s2, term2) =>
           expression_loop n s2 (Term.comb os.1 term term2) (some os.1)) := rfl

theorem at_page_body_loop_semi (n : Nat) (e : List Elem) (p : List Decl) :
    at_page_body_loop (n + 1) ("; \x7d".toList) e p =
      match parse_declaration_group n ("; \x7d".toList) false with
      | .error err => .error err
      | .ok (s1, nproperties) => at_page_body_loop n (lstrip s1) e (p ++ nproperties) := rfl

-- ~~~~~ the `@page` non-termination chain (claim C2) ~~~~~

/-- On the cursor `"; }"` the brace-less declaration group either runs out
of fuel or returns its input unchanged with no properties: `;` is not in
the loop's stop set, the declaration parse finds no identifier and yields
`None`, and the loop breaks — consuming nothing. -/
theorem pdg_semi_cases (n : Nat) :
    parse_declaration_group n ("; \x7d".toList) false = .error .outOfFuel ∨
    parse_declaration_group n ("; \x7d".toList) false = .ok ("; \x7d".toList, []) := by
  match n with
  | 0 => exact Or.inl rfl
  | 1 => exact Or.inl rfl
  | 2 => exact Or.inl rfl
  | k + 3 => exact Or.inr rfl

/-- The `@page` body loop never terminates on `"; }"`: the declaration
group consumes nothing, so the loop state repeats forever (every fuel
level is exhausted). -/
theorem at_page_loop_div (n : Nat) (e : List Elem) (p : List Decl) :
    at_page_body_loop n ("; \x7d".toList) e p = .error .outOfFuel := by
  induction n generalizing p with
  | zero => rfl
  | succ k ih =>
    rw [at_page_body_loop_semi]
    rcases pdg_semi_cases k with h | h
    · rw [h]
    · rw [h]
      exact ih (p ++ [])

theorem at_page_div (n : Nat) :
    parse_at_page n ("@page x \x7b ; \x7d".toList) = .error .outOfFuel := by
  match n with
  | 0 => rfl
  | i + 1 =>
    have heq : parse_at_page (i + 1) ("@page x \x7b ; \x7d".toList) =
        match at_page_body_loop i ("; \x7d".toList) [] [] with
        | .error e => .error e
        | .ok (s5, properties) =>
          .ok (lstrip (s5.drop 1), .elems [Elem.page (some ['x']) none properties]) := rfl
    rw [heq, at_page_loop_div i]

theorem at_keyword_div (n : Nat) :
    parse_at_keyword n ("@page x \x7b ; \x7d".toList) = .error .outOfFuel := by
  match n with
  | 0 => rfl
  | g + 1 =>
    have heq : parse_at_keyword (g + 1) ("@page x \x7b ; \x7d".toList) =
        parse_at_page g ("@page x \x7b ; \x7d".toList) := rfl
    rw [heq, at_page_div g]

theorem stylesheet_loop_div (n : Nat) :
    stylesheet_elements_loop n ("@page x \x7b ; \x7d".toList) [] = .error .outOfFuel := by
  match n with
  | 0 => rfl
  | g + 1 =>
    have heq : stylesheet_elements_loop (g + 1) ("@page x \x7b ; \x7d".toList) [] =
        match parse_at_keyword g ("@page x \x7b ; \x7d".toList) with
        | .error e => .error e
        | .ok (s1, atRes) =>
          stylesheet_elements_loop g (sCdoCdc s1)
            (match atRes with
             | .elems es => [] ++ es
             | .notImplemented => []) := rfl
    rw [heq, at_keyword_div g]

-- ~~~~~ claims ~~~~~

/-- Claim C1 (code bug).  The term production does try the kinds in the
claimed order (number, then URI, then string, …: the second and third
conjuncts show a number and an identifier produced by their recognizers),
but the claim that a matching recognizer "determines the produced term"
fails at the unicode-range kind: `re_unicoderange` has no capture group
(the grouped variant is commented out in the source), so
`_get_match_result`'s `result.group(1)` raises `IndexError` for every
source whose term is a unicode range — first conjunct, evaluating the
embedded production at `"U+0041-005A"`. -/
theorem c1_term_kind_order_crash :
    parse_expression_term 5 ("U+0041-005A".toList) =
      .error (.pyRaise "IndexError" "no such group") ∧
    parse_expression_term 5 ("1cm;".toList) = .ok ([';'], Term.num ['1'] (some ['c', 'm'])) ∧
    parse_expression_term 5 ("red;".toList) = .ok ([';'], Term.ident (.raw "red".toList)) :=
  ⟨rfl, rfl, rfl⟩

/-- Claim C2 (code bug).  Parsing does not always terminate: on
`"@page x { ; }"` the `@page` body loop calls the brace-less declaration
group, which returns its input unchanged (second conjunct: a production
returning a remainder equal to its input — `;` is missing from the
declaration loop's stop set and the declaration parse yields `None`), so
the loop makes no forward progress and the stylesheet parse runs forever
(first conjunct: every fuel level is exhausted). -/
theorem c2_at_page_nontermination :
    (∀ fuel, parse_stylesheet fuel ("@page x \x7b ; \x7d".toList) = .error .outOfFuel) ∧
    parse_declaration_group 10 ("; \x7d".toList) false = .ok ("; \x7d".toList, []) := by
  refine ⟨?_, rfl⟩
  intro fuel
  match fuel with
  | 0 => rfl
  | 1 => rfl
  | f + 2 =>
    have heq : parse_stylesheet (f + 2) ("@page x \x7b ; \x7d".toList) =
        match stylesheet_elements_loop (f + 1) ("@page x \x7b ; \x7d".toList) [] with
        | .error e => .error e
        | .ok (s5, elems) => .ok (s5, { elements := elems, imports := [] }) := rfl
    rw [heq, stylesheet_loop_div (f + 1)]

/-- Claim C3 counterexample.  A no-shrink selector member does abort the
stylesheet when it is followed by a `,`: in `".1, p { color:red } …"` the
recovery skip stops at the comma, the group loop breaks on the `None`
selector, and the ruleset's declaration-group parse then raises — so the
stylesheet parse aborts and the later well-formed rule is lost. -/
theorem c3_selector_recovery_cex :
    parse_stylesheet 60 (".1, p \x7b color:red \x7d a \x7b b:c \x7d".toList) =
      .error (.parseErr "Declaration group opening \x27\x7b\x27 not found"
        (", p \x7b color:red \x7d a \x7b b:c \x7d".toList)
        (", p \x7b color:red \x7d a \x7b b:c \x7d".toList)) := rfl

/-- Claim C3 (amended).  When a simple-selector parse fails to shrink the
remaining source, `_parse_selector` skips one character, advances to the
next delimiter and yields a `None` selector (first conjunct, for any
cursor on which the simple-selector parse returns without consuming and
no combinator or terminator leads); and when the skip lands on the `{` of
the declaration block — as in the claim's example `".1 { color:red }"` —
the stylesheet parse continues and later well-formed rules are still
parsed and delivered (second conjunct). -/
theorem c3_selector_recovery :
    (∀ (g : Nat) (src : Src) (selA selB : Sel),
      parse_simple_selector (g + 1) src = .ok (src, selA) →
      parse_simple_selector g src = .ok (src, selB) →
      stopAt src [',', ';', '\x7b', '\x7d', '[', ']', '(', ')'] = false →
      startsWithL src ['+'] = false →
      startsWithL src ['>'] = false →
      parse_selector (g + 2) src = .ok (lstrip (selSkip (src.drop 1)), none)) ∧
    parse_stylesheet 60 (".1 \x7b color:red \x7d a \x7b b:c \x7d".toList) =
      .ok ([], { elements :=
                   [Elem.ruleset [] [⟨"color".toList, .ident (.raw "red".toList), none⟩],
                    Elem.ruleset [Sel.simple (QName.res none ['a']) []]
                      [⟨['b'], .ident (.raw ['c']), none⟩]],
                 imports := [] }) := by
  constructor
  · intro g src selA selB h0 h1 hstop hp hg
    rw [parse_selector_succ, h0]
    show selector_comb_loop (g + 1) src selA src.length = _
    rw [selector_comb_loop_succ, hstop, hp, hg]
    simp only [Bool.false_eq_true, if_false, h1]
    simp
  · rfl

/-- Claim C3 witness: the general recovery statement applied to the
claim's own malformed member `".1 { color:red }"`. -/
theorem c3_selector_recovery_witness :
    parse_selector 7 (".1 \x7b color:red \x7d".toList) =
      .ok ("\x7b color:red \x7d".toList, none) := by
  have h := c3_selector_recovery.1 5 (".1 \x7b color:red \x7d".toList)
    (Sel.simple (QName.res none ['*']) []) (Sel.simple (QName.res none ['*']) [])
    (by rfl) (by rfl) (by rfl) (by rfl) (by rfl)
  simpa using h

/-- Claim C4 (code bug).  The claimed block path works: with no hook
registered, `"@unknown-thing { a:1 }"` raises nothing, the block is
consumed via the declaration-group attempt, and the following rule still
parses (first conjunct).  But for an unknown at-rule terminated by a
top-level `;` with no block before it, `blockIdx` is `None` and the guard
`semiIdx < blockIdx` compares `int` with `None`, raising `TypeError`
under Python 3 instead of skipping past the `;` (second conjunct) — the
code's own comment states the intended skip-to-`;`-or-block behaviour. -/
theorem c4_unknown_at_rule :
    parse_stylesheet 60 ("@unknown-thing \x7b a:1 \x7d x \x7b y:z \x7d".toList) =
      .ok ([], { elements :=
                   [Elem.ruleset [Sel.simple (QName.res none ['x']) []]
                     [⟨['y'], .ident (.raw ['z']), none⟩]],
                 imports := [] }) ∧
    parse_stylesheet 60 ("@foo bar; x \x7b y:z \x7d".toList) =
      .error (.pyRaise "TypeError"
        "\x27<\x27 not supported between instances of \x27int\x27 and \x27NoneType\x27") :=
  ⟨rfl, rfl⟩

/-- Specification of one offset field as the source computes it:
`find` then drop-if-negative yields `none` exactly on a failed search, and
otherwise the least occurrence offset (in particular never a negative
value). -/
theorem pyFind_field_spec (hay pat : Src) :
    ((if pyFind hay pat < 0 then (none : Option Int) else some (pyFind hay pat)) = none
        ↔ ¬ Occurs pat hay) ∧
    (∀ k : Nat,
      (if pyFind hay pat < 0 then (none : Option Int) else some (pyFind hay pat)) = some (k : Int) →
      startsWithL (hay.drop k) pat = true ∧ ∀ m, m < k → startsWithL (hay.drop m) pat = false) ∧
    (∀ n : Int,
      (if pyFind hay pat < 0 then (none : Option Int) else some (pyFind hay pat)) = some n →
      0 ≤ n) := by
  cases hfs : findSub hay pat with
  | none =>
    have hv : pyFind hay pat = -1 := by simp [pyFind, hfs]
    rw [hv]
    norm_num
    refine ⟨?_, ?_, ?_⟩
    · intro ⟨i, hi⟩
      have := (findSub_eq_none_iff hay pat).mp hfs i
      rw [this] at hi
      exact absurd hi (by simp)
    · intro k h
      exact absurd h (by simp)
    · intro n h
      exact absurd h (by simp)
  | some n =>
    have hv : pyFind hay pat = (n : Int) := by simp [pyFind, hfs]
    rw [hv]
    have hnn : ¬ ((n : Int) < 0) := by omega
    rw [if_neg hnn]
    obtain ⟨h1, h2⟩ := findSub_eq_some hay pat n hfs
    refine ⟨?_, ?_, ?_⟩
    · simp only [Option.some_ne_none, false_iff, not_not]
      exact ⟨n, h1⟩
    · intro k hk
      have : n = k := by
        have := Option.some.inj hk
        omega
      subst this
      exact ⟨h1, h2⟩
    · intro m hm
      have := Option.some.inj hm
      omega

/-- Claim C5 (confirmed).  For every constructed `CSSParseError` (with a
truthy context) and every full-source attachment (with a truthy full
source): each of the three offsets — fragment-in-context,
fragment-in-full-source, context-in-full-source — is `none` (absent)
exactly when the forward substring search fails, and any present value is
the least occurrence offset, hence non-negative: no zero or negative
sentinel ever stands for "not located", so `some 0` unambiguously means
"located at offset 0". -/
theorem c5_parse_error_offsets :
    ∀ (msg : String) (src ctx full : Src), ctx ≠ [] → full ≠ [] →
      (((mkCSSParseError msg src (some ctx)).srcCtxIdx = none) ↔ ¬ Occurs src ctx) ∧
      (∀ k : Nat, (mkCSSParseError msg src (some ctx)).srcCtxIdx = some (k : Int) →
        startsWithL (ctx.drop k) src = true ∧ ∀ m, m < k → startsWithL (ctx.drop m) src = false) ∧
      (∀ n : Int, (mkCSSParseError msg src (some ctx)).srcCtxIdx = some n → 0 ≤ n) ∧
      (((setFullCSSSource (mkCSSParseError msg src (some ctx)) full false).srcFullIdx = none)
          ↔ ¬ Occurs src full) ∧
      (∀ k : Nat,
        (setFullCSSSource (mkCSSParseError msg src (some ctx)) full false).srcFullIdx = some (k : Int) →
        startsWithL (full.drop k) src = true ∧ ∀ m, m < k → startsWithL (full.drop m) src = false) ∧
      (∀ n : Int,
        (setFullCSSSource (mkCSSParseError msg src (some ctx)) full false).srcFullIdx = some n →
        0 ≤ n) ∧
      (((setFullCSSSource (mkCSSParseError msg src (some ctx)) full false).ctxsrcFullIdx = none)
          ↔ ¬ Occurs ctx full) ∧
      (∀ k : Nat,
        (setFullCSSSource (mkCSSParseError msg src (some ctx)) full false).ctxsrcFullIdx = some (k : Int) →
        startsWithL (full.drop k) ctx = true ∧ ∀ m, m < k → startsWithL (full.drop m) ctx = false) ∧
      (∀ n : Int,
        (setFullCSSSource (mkCSSParseError msg src (some ctx)) full false).ctxsrcFullIdx = some n →
        0 ≤ n) := by
  intro msg src ctx full hc hf
  have hctxIdx : (mkCSSParseError msg src (some ctx)).srcCtxIdx =
      (if pyFind ctx src < 0 then (none : Option Int) else some (pyFind ctx src)) := by
    simp [mkCSSParseError, hc]
  have hsrcField : (mkCSSParseError msg src (some ctx)).src = src := by
    simp [mkCSSParseError]
  have hctxField : (mkCSSParseError msg src (some ctx)).ctxsrc = ctx := by
    simp [mkCSSParseError, hc]
  have hfullIdx : (setFullCSSSource (mkCSSParseError msg src (some ctx)) full false).srcFullIdx =
      (if pyFind full src < 0 then (none : Option Int) else some (pyFind full src)) := by
    simp [setFullCSSSource, hf, hsrcField]
  have hctxFullIdx :
      (setFullCSSSource (mkCSSParseError msg src (some ctx)) full false).ctxsrcFullIdx =
      (if pyFind full ctx < 0 then (none : Option Int) else some (pyFind full ctx)) := by
    simp [setFullCSSSource, hf, hctxField]
  rw [hctxIdx, hfullIdx, hctxFullIdx]
  obtain ⟨a1, a2, a3⟩ := pyFind_field_spec ctx src
  obtain ⟨b1, b2, b3⟩ := pyFind_field_spec full src
  obtain ⟨d1, d2, d3⟩ := pyFind_field_spec full ctx
  exact ⟨a1, a2, a3, b1, b2, b3, d1, d2, d3⟩

/-- Claim C5 witness: the fragment `"b"` in context `"abc"` is located at
offset 1; the fragment `"z"` is not located (field absent, not `0` or
`-1`); with full source `"xxabc"` the fragment-in-full offset is 3. -/
theorem c5_parse_error_offsets_witness :
    startsWithL (("abc".toList).drop 1) ['b'] = true ∧
    (mkCSSParseError "m" ['z'] (some ("abc".toList))).srcCtxIdx = none ∧
    (setFullCSSSource (mkCSSParseError "m" ['b'] (some ("abc".toList))) ("xxabc".toList)
        false).srcFullIdx = some 3 := by
  refine ⟨?_, ?_, rfl⟩
  · have h := c5_parse_error_offsets "m" ['b'] ("abc".toList) ("xxabc".toList)
      (by decide) (by decide)
    exact (h.2.1 1 (by rfl)).1
  · have h := c5_parse_error_offsets "m" ['z'] ("abc".toList) ("x".toList)
      (by decide) (by decide)
    refine h.1.mpr ?_
    intro ⟨i, hi⟩
    have := (findSub_eq_none_iff ("abc".toList) ['z']).mp (by rfl) i
    rw [this] at hi
    exact absurd hi (by simp)

/-- Claim C6 (confirmed).  In list mode, whenever no operator was ever
seen — i.e. the term loop exits immediately because the remainder after
the first term starts with an expression terminator — the single term is
still wrapped via `combine_terms(term, None, None)` before being
returned. -/
theorem c6_list_mode_single_term_wrap :
    ∀ (g : Nat) (src rest : Src) (t : Term),
      parse_expression_term (g + 1) src = .ok (rest, t) →
      stopAt rest [';', '\x7b', '\x7d', '[', ']', ')'] = true →
      parse_expression (g + 2) src true = .ok (rest, Term.wrap t) := by
  intro g src rest t h hstop
  rw [parse_expression_succ, h]
  show (match expression_loop (g + 1) rest t none with
        | Except.error e => Except.error e
        | Except.ok (s2, term', operator) =>
          if operator = none && true then Except.ok (s2, Term.wrap term')
          else Except.ok (s2, term')) = _
  rw [expression_loop_succ, hstop]
  simp

/-- Claim C6 witness: the single term `red` in list mode is wrapped. -/
theorem c6_list_mode_single_term_wrap_witness :
    parse_expression 2 ("red".toList) true =
      .ok ([], Term.wrap (Term.ident (.raw "red".toList))) :=
  c6_list_mode_single_term_wrap 0 ("red".toList) [] (Term.ident (.raw "red".toList)) rfl rfl

/-- Claim C7 (code bug).  With a page name present the page key is indeed
the name joined to the pseudo-page with `_` (first conjunct:
`"@page foo:first …"` passes page key `"foo_first"` and pseudo-page
`"first"` to the `at_page` hook).  But the claim's own instance
`"@page :first { margin-top: 1cm }"` — page name absent, which the
method's grammar docstring (`IDENT? pseudo_page?`) allows — crashes:
`page + '_' + pseudopage` adds `None` and `str`, raising `TypeError`
(second conjunct), instead of producing a page key. -/
theorem c7_at_page_pseudo_page :
    parse_at_page 60 ("@page foo:first \x7b margin-top: 1cm \x7d".toList) =
      .ok ([], .elems [Elem.page (some ("foo_first".toList)) (some ("first".toList))
        [⟨"margin-top".toList, .num ['1'] (some ("cm".toList)), none⟩]]) ∧
    parse_at_page 60 ("@page :first \x7b margin-top: 1cm \x7d".toList) =
      .error (.pyRaise "TypeError" "unsupported operand type(s) for +: NoneType and str") :=
  ⟨rfl, rfl⟩

/-- Claim C8 counterexample.  An attribute selector whose operator is not
in the recognized set does **not** fall back to presence-only: for
`"[a*=b]"` the operator scan yields the empty operator, no value is read,
and the immediately following `*` fails the `]` check, so
`_parse_selector_attribute` raises a `ParseError` — no `add_attribute`
call is made. -/
theorem c8_attribute_operator_fallback_cex :
    parse_selector_attribute 10 ("[a*=b]".toList) (Sel.simple (QName.raw ['x']) []) =
      .error (.parseErr "Selector Attribute closing \x27]\x27 not found"
        ("*=b]".toList) ("[a*=b]".toList)) := rfl

/-- Claim C8 (amended).  After the attribute name, when no operator of the
recognized set `{=, ~=, |=, &=, ^=, !=, <>}` follows (`attr_op_match … =
[]`): if a `]` follows directly — i.e. no operator text is present at all
— the parse succeeds presence-only, calling `add_attribute` with the name
and no operator and no value; otherwise (an unrecognized operator or any
other text follows) the parse raises `Selector Attribute closing \x27]\x27
not found`. -/
theorem c8_attribute_operator_fallback :
    ∀ (f : Nat) (rest name after : Src) (sel : Sel),
      matchNamespaceSel (lstrip rest) = none →
      matchIdent (lstrip rest) = some (name, after) →
      attr_op_match (lstrip after) = [] →
      (∀ r : Src, lstrip after = ']' :: r →
        parse_selector_attribute (f + 1) ('[' :: rest) sel =
          .ok (r, sel.addQual (.attr (QName.raw name)))) ∧
      (startsWithL (lstrip after) [']'] = false →
        parse_selector_attribute (f + 1) ('[' :: rest) sel =
          .error (.parseErr "Selector Attribute closing \x27]\x27 not found"
            (lstrip after) ('[' :: rest))) := by
  intro f rest name after sel h1 h2 h3
  have hgi : get_ident (lstrip rest) = (some name, after) := by simp [get_ident, h2]
  constructor
  · intro r hr
    simp only [parse_selector_attribute, fns, stepFns]
    simp only [h1, hgi, h3, lstrip_lstrip, List.length_nil, List.drop_zero]
    simp [hr]
  · intro hne
    simp only [parse_selector_attribute, fns, stepFns]
    simp only [h1, hgi, h3, lstrip_lstrip, List.length_nil, List.drop_zero, if_true]
    split
    · rename_i heq
      rw [heq] at hne
      simp [startsWithL] at hne
    · rfl

/-- Claim C8 witness: `"[a]"` yields the presence-only `add_attribute`
call; `"[a*=b]"` (unrecognized operator `*=`) raises. -/
theorem c8_attribute_operator_fallback_witness :
    parse_selector_attribute 10 ("[a]".toList) (Sel.simple (QName.raw ['x']) []) =
      .ok ([], Sel.simple (QName.raw ['x']) [Qual.attr (QName.raw ['a'])]) ∧
    parse_selector_attribute 10 ("[a*=b]".toList) (Sel.simple (QName.raw ['x']) []) =
      .error (.parseErr "Selector Attribute closing \x27]\x27 not found"
        ("*=b]".toList) ("[a*=b]".toList)) := by
  constructor
  · exact (c8_attribute_operator_fallback 9 ("a]".toList) ['a'] ("]".toList)
      (Sel.simple (QName.raw ['x']) []) (by decide) (by decide) (by decide)).1 [] (by decide)
  · exact (c8_attribute_operator_fallback 9 ("a*=b]".toList) ['a'] ("*=b]".toList)
      (Sel.simple (QName.raw ['x']) []) (by decide) (by decide) (by decide)).2 (by decide)

/-- Claim C9 counterexample.  `at_ident` is a hook of the builder
capability interface whose default does **not** fail loudly: invoking it
returns `(src, NotImplemented)` — a silent decline — rather than raising
a not-implemented error. -/
theorem c9_hooks_fail_loudly_cex :
    CSSBuilderAbstract.at_ident ("foo".toList) ("bar".toList) =
      .ok ("bar".toList, .notImplemented) ∧
    CSSBuilderAbstract.at_ident ("foo".toList) ("bar".toList) ≠
      .error (.notImplementedError "Subclass responsibility") :=
  ⟨rfl, fun h => Except.noConfusion h⟩

/-- Claim C9 (amended).  Every hook of `CSSSelectorAbstract` and
`CSSBuilderAbstract` **except `at_ident`** fails loudly with
`NotImplementedError("Subclass responsibility")` when not overridden;
`at_ident` instead declines by returning `(src, NotImplemented)`. -/
theorem c9_hooks_fail_loudly :
    (∀ v, CSSSelectorAbstract.add_hash_id v = .error (.notImplementedError "Subclass responsibility")) ∧
    (∀ v, CSSSelectorAbstract.add_class v = .error (.notImplementedError "Subclass responsibility")) ∧
    (∀ v, CSSSelectorAbstract.add_attribute v = .error (.notImplementedError "Subclass responsibility")) ∧
    (∀ a o v, CSSSelectorAbstract.add_attribute_operation a o v = .error (.notImplementedError "Subclass responsibility")) ∧
    (∀ v, CSSSelectorAbstract.add_pseudo v = .error (.notImplementedError "Subclass responsibility")) ∧
    (∀ n v, CSSSelectorAbstract.add_pseudo_function n v = .error (.notImplementedError "Subclass responsibility")) ∧
    (∀ v, CSSBuilderAbstract.set_charset v = .error (.notImplementedError "Subclass responsibility")) ∧
    (CSSBuilderAbstract.begin_stylesheet = .error (.notImplementedError "Subclass responsibility")) ∧
    (∀ es, CSSBuilderAbstract.stylesheet es = .error (.notImplementedError "Subclass responsibility")) ∧
    (CSSBuilderAbstract.end_stylesheet = .error (.notImplementedError "Subclass responsibility")) ∧
    (CSSBuilderAbstract.begin_inline = .error (.notImplementedError "Subclass responsibility")) ∧
    (∀ ds, CSSBuilderAbstract.inline ds = .error (.notImplementedError "Subclass responsibility")) ∧
    (CSSBuilderAbstract.end_inline = .error (.notImplementedError "Subclass responsibility")) ∧
    (∀ ss ds, CSSBuilderAbstract.ruleset ss ds = .error (.notImplementedError "Subclass responsibility")) ∧
    (∀ ns n, CSSBuilderAbstract.resolve_ns ns n = .error (.notImplementedError "Subclass responsibility")) ∧
    (∀ c, CSSBuilderAbstract.at_charset c = .error (.notImplementedError "Subclass responsibility")) ∧
    (∀ i ms, CSSBuilderAbstract.at_import i ms = .error (.notImplementedError "Subclass responsibility")) ∧
    (∀ ns u, CSSBuilderAbstract.at_namespace ns u = .error (.notImplementedError "Subclass responsibility")) ∧
    (∀ ms rs, CSSBuilderAbstract.at_media ms rs = .error (.notImplementedError "Subclass responsibility")) ∧
    (∀ p pp ds, CSSBuilderAbstract.at_page p pp ds = .error (.notImplementedError "Subclass responsibility")) ∧
    (∀ ds, CSSBuilderAbstract.at_font_face ds = .error (.notImplementedError "Subclass responsibility")) ∧
    (∀ a c b, CSSBuilderAbstract.combine_selectors a c b = .error (.notImplementedError "Subclass responsibility")) ∧
    (∀ n, CSSBuilderAbstract.selector n = .error (.notImplementedError "Subclass responsibility")) ∧
    (∀ n v i, CSSBuilderAbstract.property n v i = .error (.notImplementedError "Subclass responsibility")) ∧
    (∀ a c b, CSSBuilderAbstract.combine_terms a c b = .error (.notImplementedError "Subclass responsibility")) ∧
    (∀ v, CSSBuilderAbstract.term_ident v = .error (.notImplementedError "Subclass responsibility")) ∧
    (∀ v u, CSSBuilderAbstract.term_number v u = .error (.notImplementedError "Subclass responsibility")) ∧
    (∀ v, CSSBuilderAbstract.term_rgb v = .error (.notImplementedError "Subclass responsibility")) ∧
    (∀ v, CSSBuilderAbstract.term_uri v = .error (.notImplementedError "Subclass responsibility")) ∧
    (∀ v, CSSBuilderAbstract.term_string v = .error (.notImplementedError "Subclass responsibility")) ∧
    (∀ v, CSSBuilderAbstract.term_unicode_range v = .error (.notImplementedError "Subclass responsibility")) ∧
    (∀ n v, CSSBuilderAbstract.term_function n v = .error (.notImplementedError "Subclass responsibility")) ∧
    (∀ v, CSSBuilderAbstract.term_unknown v = .error (.notImplementedError "Subclass responsibility")) ∧
    (∀ a s, CSSBuilderAbstract.at_ident a s = .ok (s, .notImplemented)) :=
  ⟨fun _ => rfl, fun _ => rfl, fun _ => rfl, fun _ _ _ => rfl, fun _ => rfl, fun _ _ => rfl,
   fun _ => rfl, rfl, fun _ => rfl, rfl, rfl, fun _ => rfl, rfl, fun _ _ => rfl,
   fun _ _ => rfl, fun _ => rfl, fun _ _ => rfl, fun _ _ => rfl, fun _ _ => rfl,
   fun _ _ _ => rfl, fun _ => rfl, fun _ _ _ => rfl, fun _ => rfl, fun _ _ _ => rfl,
   fun _ _ _ => rfl, fun _ => rfl, fun _ _ => rfl, fun _ => rfl, fun _ => rfl,
   fun _ => rfl, fun _ => rfl, fun _ _ => rfl, fun _ => rfl, fun _ _ => rfl⟩

/-- Claim C10 (confirmed).  Every entry point emits its begin hook first
and its matching end hook last, each exactly once, whether the body
returned or raised: the `finally` of `parse` always runs
`end_stylesheet`, and the `finally` of `parse_inline` /
`parse_attributes` always runs `end_inline`. -/
theorem c10_lifecycle_pairing :
    (∀ fuel src, (parse fuel src).1 = [.beginStylesheet, .endStylesheet]) ∧
    (∀ fuel src,
      (parse_inline fuel src).1.head? = some .beginInline ∧
      (parse_inline fuel src).1.getLast? = some .endInline ∧
      (parse_inline fuel src).1.count .beginInline = 1 ∧
      (parse_inline fuel src).1.count .endInline = 1) ∧
    (∀ fuel attrs,
      (parse_attributes fuel attrs).1.head? = some .beginInline ∧
      (parse_attributes fuel attrs).1.getLast? = some .endInline ∧
      (parse_attributes fuel attrs).1.count .beginInline = 1 ∧
      (parse_attributes fuel attrs).1.count .endInline = 1) := by
  refine ⟨?_, ?_, ?_⟩
  · intro fuel src
    cases h : parse_stylesheet fuel (cleanup_css src) with
    | ok v => simp [parse, h]
    | error e => cases e <;> simp [parse, h]
  · intro fuel src
    cases h : parse_declaration_group fuel (pyStrip src) false with
    | ok v => simp [parse_inline, h, List.count]
    | error e => cases e <;> simp [parse_inline, h, List.count]
  · intro fuel attrs
    cases h : parse_attributes_loop fuel attrs with
    | ok v => simp [parse_attributes, h, List.count]
    | error e => simp [parse_attributes, h, List.count]
